import Mathlib

/-!
Verification of the resource-descriptor resolution engine and the command
dispatch / admission-control layer of an IRC-driven archival bot.

The development is a shallow embedding of `src/message.rs`.  Strings are
Lean `String`s; the character-level work is done on `List Char` (`String.data`).
The regular expressions of the source are modelled as hand-rolled scanners
that follow the leftmost-first / greedy backtracking semantics of the `regex`
crate on the concrete patterns in question; `.` in a pattern matches any
character except a newline.  The literal dots inside the host names of the
anchored URL patterns are modelled as literal dots: every one of those
patterns is only tried after the `ensure!` check that the URL starts with the
literal `https://www.youtube.com/`, and on such inputs the wildcard and the
literal agree.

External collaborators (the page fetcher and the spawned processes) are
modelled by a `World` record giving the stdout of each invocation, and every
effectful function additionally returns the trace of external invocations it
performed, in order.  Rust panics (`unwrap` failures) are distinguished from
returned errors by the `Outcome` type.  `str::from_utf8` of a collaborator's
stdout cannot fail in the model because Lean strings are already well-formed
text; the corresponding `Utf8` error is therefore never produced.
-/

deriving instance DecidableEq for Except

/-! ## Character-level helpers -/

/-- Rust `str::replace`, fuelled to keep the recursion structural: replaces
non-overlapping occurrences of `pat` left to right.  The fuel is the length of
the subject; every pattern used by the source is non-empty, so one unit of
fuel per consumed character suffices. -/
def repAllF (pat rep : List Char) : Nat → List Char → List Char
  | 0, s => s
  | n+1, s =>
    match s with
    | [] => []
    | c :: t =>
      if pat.isPrefixOf s then rep ++ repAllF pat rep n (List.drop pat.length s)
      else c :: repAllF pat rep n t

/-- Rust `str::replace` on `String`. -/
def strReplace (s pat rep : String) : String :=
  ⟨repAllF pat.data rep.data s.data.length s.data⟩

/-- Rust `str::starts_with`. -/
def strStartsWith (s pat : String) : Bool :=
  pat.data.isPrefixOf s.data

/-- Whether `pat` occurs as a contiguous substring of `s`. -/
def containsSub : List Char → List Char → Bool
  | s, pat =>
    match s with
    | [] => pat.isPrefixOf []
    | _ :: t => pat.isPrefixOf s || containsSub t pat

/-- Split on a separator character, keeping every (possibly empty) field;
the result is always non-empty.  Mirrors Rust `str::split(sep)`. -/
def splitOn (sep : Char) : List Char → List (List Char)
  | [] => [[]]
  | c :: t =>
    if c = sep then [] :: splitOn sep t
    else
      match splitOn sep t with
      | [] => [[c]]
      | h :: r => (c :: h) :: r

/-- Rust `str::lines`: split on `'\n'`, drop a final empty field (trailing
newline), and strip one trailing `'\r'` from each line. -/
def rustLines (s : List Char) : List (List Char) :=
  let fields := splitOn '\n' s
  let fields := match fields.getLast? with
    | some [] => fields.dropLast
    | _ => fields
  fields.map (fun l => if l.getLast? = some '\r' then l.dropLast else l)

/-- Rust `str::splitn(2, ' ')`: the part before the first space, and the part
after it when a space exists. -/
def splitOnce : List Char → List Char × Option (List Char)
  | [] => ([], none)
  | c :: t =>
    if c = ' ' then ([], some t)
    else
      let (a, b) := splitOnce t
      (c :: a, b)

/-- Rust `<u64 as FromStr>::from_str`: optional leading `'+'`, at least one
ASCII digit, and the value must fit in 64 bits. -/
def parseU64 (s : List Char) : Option Nat :=
  let digits := match s with
    | '+' :: t => t
    | _ => s
  if !digits.isEmpty && digits.all Char.isDigit then
    let v := digits.foldl (fun acc c => acc * 10 + (c.toNat - '0'.toNat)) 0
    if v < 2 ^ 64 then some v else none
  else none

/-- The character class `[-_A-Za-z0-9]` of the source's identifier patterns. -/
def isIdChar (c : Char) : Bool :=
  c == '-' || c == '_' || c.isAlpha || c.isDigit

/-- The character class `[0-9A-F]` of the legacy playlist id pattern. -/
def isUpperHex (c : Char) : Bool :=
  c.isDigit || ('A' ≤ c && c ≤ 'F')

/-- The character class `[A-Za-z0-9]` of the user handle pattern. -/
def isAlphaNum (c : Char) : Bool :=
  c.isAlpha || c.isDigit

/-! ## Error taxonomy (`enum Error` of the source)

`Io` and `Utf8` are called `IoError` and `Utf8Error` here; neither is
producible in the model (see the header comment). -/

inductive Error
  | TomlEncode
  | TomlDecode
  | IoError
  | Utf8Error
  | UrlTooLong
  | UnsupportedUrl (url : String)
  | NotAuthorized
  | CouldNotGetChannelIdentifier
  | InvalidTaskName (task : String)
  | NotImplemented (what : String)
  | ErrorListingFiles (folder : String)
  | ErrorCreatingFolder (folder : String)
deriving DecidableEq, Repr

/-- Rendering of an error by the `snafu`-derived `Display` implementation.
Variants without a `display` attribute in the source are rendered by their
variant name; none of them is reachable in this model. -/
def errDisplay : Error → String
  | .TomlEncode => "TomlEncode"
  | .TomlDecode => "TomlDecode"
  | .IoError => "Io"
  | .Utf8Error => "Utf8"
  | .UrlTooLong => "UrlTooLong"
  | .UnsupportedUrl url => "Unsupported URL: " ++ url
  | .NotAuthorized => "Not authorized"
  | .CouldNotGetChannelIdentifier => "Could not get channel identifier"
  | .InvalidTaskName task => "Invalid task name: " ++ task
  | .NotImplemented what => "Not implemented: " ++ what
  | .ErrorListingFiles folder => "Internal error listing files for " ++ folder
  | .ErrorCreatingFolder folder => "Internal error creating folder " ++ folder

/-- The result of running a piece of Rust code: a returned value, a returned
`Err`, or a panic (an `unwrap` failure, which aborts instead of returning). -/
inductive Outcome (α : Type)
  | ok : α → Outcome α
  | err : Error → Outcome α
  | panicked : Outcome α
deriving DecidableEq, Repr

/-! ## The external world -/

/-- One spawned external process: executable name and arguments. -/
abbrev ExtCall := String × List String

/-- Stdout produced by each external collaborator.  Each invocation of the
same command with the same argument is assumed to produce the same output for
the duration of one dispatched command (the functions below are pure in `w`). -/
structure World where
  /-- stdout of `get-youtube-page <url>`. -/
  pageContents : String → String
  /-- stdout of `tmux list-sessions -F '#{session_created} #S'`. -/
  tmuxListOutput : String
  /-- stdout of `ts ls -n YouTube -j -t <folder>`. -/
  fileListing : String → String
  /-- stdout of `get-running-youtube-scripts`. -/
  scriptsOutput : String

/-- Model of `contents_for_url`: fetch a page via the external `get-youtube-page`
helper. -/
def contents_for_url (w : World) (url : String) : String × List ExtCall :=
  (w.pageContents url, [("get-youtube-page", [url])])

/-! ## Page-markup extraction (`extract_username`, `extract_channel_id`)

Both regexes have the form `LITERAL([^"]+)">`: at each candidate start
position the literal must match; the greedy `[^"]+` then takes the maximal
run of non-quote characters, and no shorter run can satisfy the following
`">`, so the position matches exactly when that run is non-empty and is
followed by `"` and `>`. -/

/-- Scanner for `LITERAL([^"]+)">`-shaped patterns; returns the first capture
in leftmost-first order. -/
def scanTagCapture (pat : List Char) : List Char → Option (List Char)
  | [] => none
  | s@(_ :: t) =>
    if pat.isPrefixOf s then
      let rest := List.drop pat.length s
      let run := rest.takeWhile (fun c => c ≠ '"')
      if !run.isEmpty && (List.take 2 (List.drop run.length rest)) == ['"', '>'] then some run
      else scanTagCapture pat t
    else scanTagCapture pat t

/-- The literal part of
`<link itemprop="url" href="http://www.youtube.com/user/([^"]+)">`. -/
def userLinkPat : List Char :=
  ("<link itemprop=\"url\" href=\"http://www.youtube.com/user/").data

/-- Model of `extract_username`. -/
def extract_username (page_contents : String) : Option String :=
  (scanTagCapture userLinkPat page_contents.data).map (fun l => (⟨l⟩ : String))

/-- The literal part of `<meta itemprop="channelId" content="([^"]+)">`. -/
def metaChannelPat : List Char :=
  ("<meta itemprop=\"channelId\" content=\"").data

/-- The literal ` ytplayer = ` opening the fallback pattern
` ytplayer = .+?\\"channelId\\":\\"([^"]+)\\"`. -/
def ytplayerHead : List Char := (" ytplayer = ").data

/-- The literal `\"channelId\":\"` (escaped JSON inside page markup). -/
def channelIdKey : List Char := ("\\\"channelId\\\":\\\"").data

/-- Try the `\"channelId\":\"([^"]+)\\"` part at one position: the greedy
`[^"]+` takes the maximal non-quote run; the following `\\"` forces that run
to end in a backslash with a quote right after it, the capture being the run
without its final backslash. -/
def ytplayerTryKey (l : List Char) : Option (List Char) :=
  if channelIdKey.isPrefixOf l then
    let rest := List.drop channelIdKey.length l
    let run := rest.takeWhile (fun c => c ≠ '"')
    if 2 ≤ run.length && run.getLast? == some '\\' &&
        List.take 1 (List.drop run.length rest) == ['"'] then
      some run.dropLast
    else none
  else none

/-- The lazy `.+?`: consume one non-newline character at a time, trying the
key pattern at each subsequent position (shortest extension first). -/
def ytplayerLazyScan : List Char → Option (List Char)
  | [] => none
  | c :: t =>
    if c = '\n' then none
    else
      match ytplayerTryKey t with
      | some cap => some cap
      | none => ytplayerLazyScan t

/-- Leftmost-first scan for the whole ` ytplayer = .+?\\"channelId\\":\\"…`
pattern. -/
def scanYtplayer : List Char → Option (List Char)
  | [] => none
  | s@(_ :: t) =>
    if ytplayerHead.isPrefixOf s then
      match ytplayerLazyScan (List.drop ytplayerHead.length s) with
      | some cap => some cap
      | none => scanYtplayer t
    else scanYtplayer t

/-- Model of `extract_channel_id`: the structured `<meta>` tag first, then the
embedded-player fallback, else `CouldNotGetChannelIdentifier`.  (The
`captures.len() >= 1` guards of the source always hold when a match exists.) -/
def extract_channel_id (page_contents : String) : Except Error String :=
  match scanTagCapture metaChannelPat page_contents.data with
  | some cap => .ok ⟨cap⟩
  | none =>
    match scanYtplayer page_contents.data with
    | some cap => .ok ⟨cap⟩
    | none => .error .CouldNotGetChannelIdentifier

/-! ## URL normalizer (`fix_youtube_url`) -/

/-- Model of `fix_youtube_url`: ordered textual substitutions. -/
def fix_youtube_url (url : String) : String :=
  let url := strReplace url "http://" "https://"
  let url := strReplace url "https://m.youtube.com/" "https://www.youtube.com/"
  let url := strReplace url "https://youtube.com/" "https://www.youtube.com/"
  let url := strReplace url "https://youtu.be/" "https://www.youtube.com/watch?v="
  let url := strReplace url "?disable_polymer=1" ""
  let url := strReplace url "&disable_polymer=1" ""
  url

/-! ## Descriptors -/

inductive FetchType
  | User
  | Channel
  | Playlist
  | Video
deriving DecidableEq, Repr

/-- Model of `CanonicalizedYoutubeDescriptor` (field order as in the source). -/
structure CanonicalizedYoutubeDescriptor where
  id : String
  folder : String
  kind : FetchType
deriving DecidableEq, Repr

def CanonicalizedYoutubeDescriptor.to_url (d : CanonicalizedYoutubeDescriptor) : String :=
  match d.kind with
  | .User => "https://www.youtube.com/user/" ++ d.id ++ "/videos"
  | .Channel => "https://www.youtube.com/channel/" ++ d.id ++ "/videos"
  | .Playlist => "https://www.youtube.com/playlist?list=" ++ d.id
  | .Video => "https://www.youtube.com/watch?v=" ++ d.id

/-- Map of username to folder for channels whose videos are not stored under
the folder `username` (`FOLDER_EXCEPTIONS`). -/
def FOLDER_EXCEPTIONS : List (String × String) :=
  [("TEDxTalks", "UCsT0YIqwnpJCM-mx7-gSA4Q")]

inductive YoutubeDescriptor
  | User (id : String)
  | Channel (id : String)
  | Playlist (id : String)
  | Video (id : String)
deriving DecidableEq, Repr

def YoutubeDescriptor.to_url : YoutubeDescriptor → String
  | .User id => "https://www.youtube.com/user/" ++ id ++ "/videos"
  | .Channel id => "https://www.youtube.com/channel/" ++ id ++ "/videos"
  | .Playlist id => "https://www.youtube.com/playlist?list=" ++ id
  | .Video id => "https://www.youtube.com/watch?v=" ++ id

/-! ## URL classification (`YoutubeDescriptor::from_url`)

The five anchored patterns all have the shape
`\Ahttps://www.youtube.com/SEGMENT…\z`.  After the `ensure!` that the URL
starts with the literal `https://www.youtube.com/`, a pattern can only match
with its host part on that literal prefix, so each one is modelled as a
literal prefix test plus a scanner for the remainder. -/

/-- Tail `([#\&].*)?\z` of the watch and playlist patterns: empty, or `#`/`&`
followed by non-newline characters. -/
def queryTailOk : List Char → Bool
  | [] => true
  | c :: t => (c == '#' || c == '&') && t.all (fun x => x ≠ '\n')

/-- Tail `([/#\?].*)?\z` of the channel and user patterns. -/
def pathTailOk : List Char → Bool
  | [] => true
  | c :: t => (c == '/' || c == '#' || c == '?') && t.all (fun x => x ≠ '\n')

/-- Greedy scan for `.*[\?&]KEY…`: the greedy `.*` prefers the rightmost
position at which `[\?&]` followed by the keyed capture matches, and it cannot
cross a newline. -/
def paramScan (tryAt : List Char → Option (List Char)) : List Char → Option (List Char)
  | [] => none
  | c :: t =>
    match (if c = '\n' then none else paramScan tryAt t) with
    | some r => some r
    | none => if c == '?' || c == '&' then tryAt t else none

/-- Model of `v=([-_A-Za-z0-9]{11})([#\&].*)?\z` at one position. -/
def vParamTry (l : List Char) : Option (List Char) :=
  if ("v=").data.isPrefixOf l then
    let rest := List.drop 2 l
    let id := List.take 11 rest
    if id.length == 11 && id.all isIdChar && queryTailOk (List.drop 11 rest) then some id
    else none
  else none

/-- Model of `list=(PL<idLen chars of cls>)([#\&].*)?\z` at one position; the capture
includes the literal `PL`. -/
def listParamTry (idLen : Nat) (cls : Char → Bool) (l : List Char) : Option (List Char) :=
  if ("list=PL").data.isPrefixOf l then
    let rest := List.drop 7 l
    let id := List.take idLen rest
    if id.length == idLen && id.all cls && queryTailOk (List.drop idLen rest) then
      some (('P' :: ['L']) ++ id)
    else none
  else none

/-- Model of `WATCH_RE`: `\Ahttps://www.youtube.com/watch.*[\?&]v=([-_A-Za-z0-9]{11})([#\&].*)?\z`. -/
def watchMatch (url : String) : Option String :=
  if strStartsWith url "https://www.youtube.com/watch" then
    (paramScan vParamTry (List.drop 29 url.data)).map (fun l => (⟨l⟩ : String))
  else none

/-- Model of `OLD_PLAYLIST_RE`: `…playlist.*[\?&]list=(PL[0-9A-F]{16})([#\&].*)?\z`. -/
def oldPlaylistMatch (url : String) : Option String :=
  if strStartsWith url "https://www.youtube.com/playlist" then
    (paramScan (listParamTry 16 isUpperHex) (List.drop 32 url.data)).map (fun l => (⟨l⟩ : String))
  else none

/-- Model of `NEW_PLAYLIST_RE`: `…playlist.*[\?&]list=(PL[-_A-Za-z0-9]{32})([#\&].*)?\z`. -/
def newPlaylistMatch (url : String) : Option String :=
  if strStartsWith url "https://www.youtube.com/playlist" then
    (paramScan (listParamTry 32 isIdChar) (List.drop 32 url.data)).map (fun l => (⟨l⟩ : String))
  else none

/-- The remainder test of `CHANNEL_RE` after `…/channel/`:
`(UC[-_A-Za-z0-9]{22})([/#\?].*)?\z`.  The id is exactly 24 characters; its
characters cannot begin the optional tail, so the split is forced. -/
def channelRest (rest : List Char) : Option (List Char) :=
  let id := List.take 24 rest
  if id.length == 24 && ("UC").data.isPrefixOf id && (List.drop 2 id).all isIdChar &&
      pathTailOk (List.drop 24 rest) then
    some id
  else none

/-- Model of `CHANNEL_RE`: `\Ahttps://www.youtube.com/channel/(UC[-_A-Za-z0-9]{22})([/#\?].*)?\z`. -/
def channelMatch (url : String) : Option String :=
  if strStartsWith url "https://www.youtube.com/channel/" then
    (channelRest (List.drop 32 url.data)).map (fun l => (⟨l⟩ : String))
  else none

/-- The remainder test of `USER_RE` after `…/user/`:
`([A-Za-z0-9]{1,20})([/#\?].*)?\z`.  The greedy bounded repetition takes the
maximal alphanumeric run; a run longer than 20 leaves an alphanumeric
character that cannot begin the tail, and no backtracked shorter run can
either, so such inputs fail. -/
def userRest (rest : List Char) : Option (List Char) :=
  let run := rest.takeWhile isAlphaNum
  if 1 ≤ run.length && run.length ≤ 20 && pathTailOk (List.drop run.length rest) then some run
  else none

/-- Model of `USER_RE`: `\Ahttps://www.youtube.com/user/([A-Za-z0-9]{1,20})([/#\?].*)?\z`. -/
def userMatch (url : String) : Option String :=
  if strStartsWith url "https://www.youtube.com/user/" then
    (userRest (List.drop 29 url.data)).map (fun l => (⟨l⟩ : String))
  else none

/-- The pattern-matching cascade of `from_url` on the already-normalized URL. -/
def classifyFixed (url : String) : Except Error YoutubeDescriptor :=
  if strStartsWith url "https://www.youtube.com/" = false then
    .error (.UnsupportedUrl url)
  else
    match watchMatch url with
    | some id => .ok (.Video id)
    | none =>
      match oldPlaylistMatch url with
      | some id => .ok (.Playlist id)
      | none =>
        match newPlaylistMatch url with
        | some id => .ok (.Playlist id)
        | none =>
          match channelMatch url with
          | some id => .ok (.Channel id)
          | none =>
            match userMatch url with
            | some id => .ok (.User id)
            | none => .error (.UnsupportedUrl url)

/-- Model of `YoutubeDescriptor::from_url`: normalize, `ensure!` the canonical prefix,
then try the five patterns in source order. -/
def YoutubeDescriptor.from_url (url : String) : Except Error YoutubeDescriptor :=
  classifyFixed (fix_youtube_url url)

/-! ## Canonicalization -/

/-- The `Channel`/`User` branch of `canonicalize`: fetch the resource page,
prefer the extracted username (with the folder-exception override), fall back
to the extracted channel id. -/
def canonicalizeChannelOrUser (w : World) (d : YoutubeDescriptor) :
    Except Error CanonicalizedYoutubeDescriptor × List ExtCall :=
  let (contents, calls) := contents_for_url w d.to_url
  match extract_username contents with
  | none =>
    match extract_channel_id contents with
    | .error e => (.error e, calls)
    | .ok channel_id => (.ok ⟨channel_id, channel_id, .Channel⟩, calls)
  | some username =>
    let folder := match FOLDER_EXCEPTIONS.lookup username with
      | some custom_folder => custom_folder
      | none => username
    (.ok ⟨username, folder, .User⟩, calls)

/-- Model of `YoutubeDescriptor::canonicalize`.  The `Video` branch re-canonicalizes
the owning channel (`YoutubeDescriptor::Channel(channel_id).canonicalize()`),
which lands in the `Channel | User` branch, here factored out as
`canonicalizeChannelOrUser`. -/
def YoutubeDescriptor.canonicalize (w : World) (d : YoutubeDescriptor) :
    Except Error CanonicalizedYoutubeDescriptor × List ExtCall :=
  match d with
  | .Video id =>
    let (contents, calls) := contents_for_url w d.to_url
    match extract_channel_id contents with
    | .error e => (.error e, calls)
    | .ok channel_id =>
      match canonicalizeChannelOrUser w (.Channel channel_id) with
      | (.error e, calls2) => (.error e, calls ++ calls2)
      | (.ok c, calls2) => (.ok ⟨id, c.folder, .Video⟩, calls ++ calls2)
  | .Playlist id => (.ok ⟨id, id, .Playlist⟩, [])
  | .Channel _ => canonicalizeChannelOrUser w d
  | .User _ => canonicalizeChannelOrUser w d


/-! ## Runtime configuration (`Rtd`)

Flattened to the fields the message handler reads: `conf.user_limits`,
`conf.user_highlights`, `conf.params.task_limit` and
`conf.params.command_channel`.  The `HashMap`s are modelled as association
lists with distinct keys, looked up with `List.lookup`. -/

inductive HighlightMode
  | Normal
  | Fraktur
  | FrakturBold
  | Script
  | Bold
  | Italic
  | BoldItalic
deriving DecidableEq, Repr

structure Rtd where
  user_limits : List (String × Nat)
  user_highlights : List (String × HighlightMode)
  task_limit : Nat
  command_channel : String

/-! ## Session registry reader -/

structure DownloaderSession where
  identifier : String
  start_time : Nat
deriving DecidableEq, Repr

/-- What processing one line of `tmux list-sessions` output does: panic on an
`unwrap` failure, skip a non-`YouTube-` session, or keep a parsed session. -/
inductive LineParse
  | panic
  | skip
  | keep (s : DownloaderSession)
deriving DecidableEq, Repr

/-- One step of the `filter_map` body of `get_downloader_sessions`:
`splitn(2, ' ')`, `parts.get(0).unwrap().parse::<u64>().unwrap()`,
`parts.get(1).unwrap()`, then the `YouTube-` filter with
`replacen("YouTube-", "", 1)`.  The first `get(0).unwrap()` cannot fail
(`splitn` always yields at least one part); the two remaining `unwrap`s
panic on a non-numeric timestamp and on a missing session name. -/
def parseSessionLine (line : List Char) : LineParse :=
  let (p0, p1) := splitOnce line
  match parseU64 p0 with
  | none => .panic
  | some start_time =>
    match p1 with
    | none => .panic
    | some session_name =>
      if ("YouTube-").data.isPrefixOf session_name then
        .keep ⟨⟨List.drop 8 session_name⟩, start_time⟩
      else .skip

/-- Folding the line parser over all lines (the `collect` drains the whole
iterator; a panic anywhere aborts the call). -/
def parseSessions : List (List Char) → Outcome (List DownloaderSession)
  | [] => .ok []
  | line :: rest =>
    match parseSessionLine line with
    | .panic => .panicked
    | .skip => parseSessions rest
    | .keep s =>
      match parseSessions rest with
      | .ok l => .ok (s :: l)
      | .err e => .err e
      | .panicked => .panicked

/-- The `tmux list-sessions` invocation. -/
def tmuxListCall : ExtCall :=
  ("tmux", ["list-sessions", "-F", "#{session_created} #S"])

/-- Model of `get_downloader_sessions`. -/
def get_downloader_sessions (w : World) : Outcome (List DownloaderSession) × List ExtCall :=
  (parseSessions (rustLines w.tmuxListOutput.data), [tmuxListCall])

/-! ## Admission control and task launch -/

inductive VideoSize
  | Normal
  | VeryBig
deriving DecidableEq, Repr

/-- Model of `limit_for_user`: per-user limit with the configured default. -/
def limit_for_user (user : String) (rtd : Rtd) : Nat :=
  match rtd.user_limits.lookup user with
  | none => rtd.task_limit
  | some limit => limit

def logs_url (folder : String) : String :=
  "https://ya.borg.xyz/logs/dl/" ++ folder ++ "/"

/-- Model of `archive`: duplicate-folder check against the live session list, then the
per-kind launch; non-video kinds are additionally gated by the per-user
concurrency limit.  The stdout of the launched process is read (and UTF-8
checked) but otherwise unused. -/
def archive (w : World) (original_url : String) (descriptor : CanonicalizedYoutubeDescriptor)
    (video_size : VideoSize) (user : String) (rtd : Rtd) : Outcome String × List ExtCall :=
  let folder := descriptor.folder
  let (sess, calls) := get_downloader_sessions w
  match sess with
  | .err e => (.err e, calls)
  | .panicked => (.panicked, calls)
  | .ok sessions =>
    if sessions.any (fun session => session.identifier == folder) then
      (.ok ("Can\x27t archive " ++ original_url ++
        " because another task is running in the same folder " ++ folder), calls)
    else
      match descriptor.kind with
      | .Video =>
        let command := match video_size with
          | .Normal => "grab-youtube-video"
          | .VeryBig => "grab-youtube-video-big-video"
        (.ok ("Grabbing " ++ original_url ++ " -> " ++ folder ++ "; check " ++
          logs_url folder ++ " later"),
         calls ++ [(command, [folder, descriptor.to_url])])
      | .Channel | .User | .Playlist =>
        let tasks_limit := limit_for_user user rtd
        if sessions.length ≥ tasks_limit then
          (.ok ("Can\x27t archive " ++ original_url ++
            " because too many tasks are running (your limit = " ++ toString tasks_limit ++
            "), try again later"), calls)
        else
          let command := match video_size with
            | .Normal => "grab-youtube-channel"
            | .VeryBig => "grab-youtube-channel-big-videos"
          (.ok ("Grabbing " ++ original_url ++ " -> " ++ folder ++ "; check " ++
            logs_url folder ++ " later"),
           calls ++ [(command, [folder, toString (999999 : Nat)])])

/-- Model of `assert_valid_task_name`: the strict identifier pattern
`\A[-_A-Za-z0-9]+\z`. -/
def validTaskName (task : String) : Bool :=
  !task.data.isEmpty && task.data.all isIdChar

def assert_valid_task_name (task : String) : Except Error Unit :=
  if validTaskName task then .ok () else .error (.InvalidTaskName task)

/-- Model of `abort`: validate the task name, then signal the named tmux session. -/
def abort (task : String) : Except Error String × List ExtCall :=
  match assert_valid_task_name task with
  | .error e => (.error e, [])
  | .ok _ =>
    let session := "YouTube-" ++ task
    (.ok ("Aborted " ++ task), [("tmux", ["send-keys", "-t", session, "C-c"])])

/-! ## Stash listing -/

/-- Model of `get_file_listing`: lines of the external lister's stdout. -/
def get_file_listing (w : World) (folder : String) : List String × List ExtCall :=
  ((rustLines (w.fileListing folder).data).map (fun l => (⟨l⟩ : String)),
   [("ts", ["ls", "-n", "YouTube", "-j", "-t", folder])])

/-- Model of `rsplitn(2, '.').first()`: the text after the last `'.'`, or the whole
name when it contains none. -/
def fileExt (s : String) : String :=
  ⟨(s.data.reverse.takeWhile (fun c => c ≠ '.')).reverse⟩

def isVideoExt (ext : String) : Bool :=
  ext == "mp4" || ext == "webm" || ext == "flv" || ext == "mkv" || ext == "video"

/-- Rust `{:?}` on a vector of strings.  (`Debug` escaping of special
characters inside a name is not modelled; no claim inspects a listing whose
names need escaping.) -/
def formatDebugList (l : List String) : String :=
  "[" ++ String.intercalate ", " (l.map (fun s => "\"" ++ s ++ "\"")) ++ "]"

/-- Model of `check_folder`.  In the model `get_file_listing` always returns, so the
`ErrorListingFiles` arm of the source is unreachable. -/
def check_folder (w : World) (folder : String) : Except Error String × List ExtCall :=
  match assert_valid_task_name folder with
  | .error e => (.error e, [])
  | .ok _ =>
    let (listing, calls) := get_file_listing w folder
    let videos := listing.filter (fun s => isVideoExt (fileExt s))
    let latest_videos := videos.take 4
    (.ok ("stash has " ++ toString videos.length ++ " videos for " ++ folder ++ " (" ++
      logs_url folder ++ "); latest " ++ formatDebugList latest_videos), calls)

/-- Model of `check_stash`: not implemented for videos, else list the folder. -/
def check_stash (w : World) (descriptor : CanonicalizedYoutubeDescriptor) :
    Except Error String × List ExtCall :=
  if descriptor.kind == FetchType.Video then
    (.error (.NotImplemented "/s on /watch? URL"), [])
  else
    check_folder w descriptor.folder

/-! ## Script control and status -/

def stop_scripts : Except Error String × List ExtCall :=
  (.ok "Stopped all scripts", [("stop-all-youtube-scripts", [])])

def cont_scripts : Except Error String × List ExtCall :=
  (.ok "Continued all scripts", [("cont-all-youtube-scripts", [])])

/-- Model of `get_status`: session count, configured default limit, and the number of
newline bytes in the script lister's output. -/
def get_status (w : World) (rtd : Rtd) : Outcome String × List ExtCall :=
  let (sess, calls) := get_downloader_sessions w
  match sess with
  | .err e => (.err e, calls)
  | .panicked => (.panicked, calls)
  | .ok sessions =>
    let num_scripts := (w.scriptsOutput.data.filter (fun c => c = '\n')).length
    (.ok (toString sessions.length ++ "/" ++ toString rtd.task_limit ++ " downloaders, " ++
      toString num_scripts ++ " scripts running"),
     calls ++ [("get-running-youtube-scripts", [])])

def get_help : Except Error String :=
  .ok ("Usage: !help | !status | !s <URL or folder> | !a <URL> | !sa <URL> | " ++
    "!averybig <URL w/ very large videos> | !saverybig <URL w/ very large videos> | " ++
    "!abort <task> | !stopscripts | !contscripts")

/-! ## User highlighting

The alphabet constants are embedded byte-for-byte as they appear in the
source file (`escaped` here only for portability of this file). -/

def ALPHA_REGULAR : String :=
  "ABCDEFGHIJKLMNOPQRSTUVWXYZabcdefghijklmnopqrstuvwxyz"

def ALPHA_FRAKTUR : String :=
  "\uF8FF\u00F9\u00EE\u00D1\uF8FF\u00F9\u00EE\u00D6\u201A\u00D1\u2260\uF8FF\u00F9\u00EE\u00E1\uF8FF\u00F9\u00EE\u00E0\uF8FF\u00F9\u00EE\u00E2\uF8FF\u00F9\u00EE\u00E4\u201A\u00D1\u00E5\u201A\u00D1\u00EB\uF8FF\u00F9\u00EE\u00E7\uF8FF\u00F9\u00EE\u00E9\uF8FF\u00F9\u00EE\u00E8\uF8FF\u00F9\u00EE\u00EA\uF8FF\u00F9\u00EE\u00EB\uF8FF\u00F9\u00EE\u00ED\uF8FF\u00F9\u00EE\u00EC\uF8FF\u00F9\u00EE\u00EE\u201A\u00D1\u00FA\uF8FF\u00F9\u00EE\u00F1\uF8FF\u00F9\u00EE\u00F3\uF8FF\u00F9\u00EE\u00F2\uF8FF\u00F9\u00EE\u00F4\uF8FF\u00F9\u00EE\u00F6\uF8FF\u00F9\u00EE\u00F5\uF8FF\u00F9\u00EE\u00FA\u201A\u00D1\u00AE\uF8FF\u00F9\u00EE\u00FB\uF8FF\u00F9\u00EE\u00FC\uF8FF\u00F9\u00EE\u2020\uF8FF\u00F9\u00EE\u00B0\uF8FF\u00F9\u00EE\u00A2\uF8FF\u00F9\u00EE\u00A3\uF8FF\u00F9\u00EE\u00A7\uF8FF\u00F9\u00EE\u2022\uF8FF\u00F9\u00EE\u00B6\uF8FF\u00F9\u00EE\u00DF\uF8FF\u00F9\u00EE\u00AE\uF8FF\u00F9\u00EE\u00A9\uF8FF\u00F9\u00EE\u2122\uF8FF\u00F9\u00EE\u00B4\uF8FF\u00F9\u00EE\u00A8\uF8FF\u00F9\u00EE\u2260\uF8FF\u00F9\u00EE\u00C6\uF8FF\u00F9\u00EE\u00D8\uF8FF\u00F9\u00EE\u221E\uF8FF\u00F9\u00EE\u00B1\uF8FF\u00F9\u00EE\u2264\uF8FF\u00F9\u00EE\u2265\uF8FF\u00F9\u00EE\u00A5\uF8FF\u00F9\u00EE\u00B5\uF8FF\u00F9\u00EE\u2202\uF8FF\u00F9\u00EE\u2211"

def ALPHA_FRAKTUR_BOLD : String :=
  "\uF8FF\u00F9\u00EF\u00A8\uF8FF\u00F9\u00EF\u2260\uF8FF\u00F9\u00EF\u00C6\uF8FF\u00F9\u00EF\u00D8\uF8FF\u00F9\u00EF\u221E\uF8FF\u00F9\u00EF\u00B1\uF8FF\u00F9\u00EF\u2264\uF8FF\u00F9\u00EF\u2265\uF8FF\u00F9\u00EF\u00A5\uF8FF\u00F9\u00EF\u00B5\uF8FF\u00F9\u00EF\u2202\uF8FF\u00F9\u00EF\u2211\uF8FF\u00F9\u00EF\u220F\uF8FF\u00F9\u00EF\u03C0\uF8FF\u00F9\u00EF\u222B\uF8FF\u00F9\u00EF\u00AA\uF8FF\u00F9\u00EF\u00BA\uF8FF\u00F9\u00EF\u03A9\uF8FF\u00F9\u00EF\u00E6\uF8FF\u00F9\u00EF\u00F8\uF8FF\u00F9\u00F1\u00C4\uF8FF\u00F9\u00F1\u00C5\uF8FF\u00F9\u00F1\u00C7\uF8FF\u00F9\u00F1\u00C9\uF8FF\u00F9\u00F1\u00D1\uF8FF\u00F9\u00F1\u00D6\uF8FF\u00F9\u00F1\u00DC\uF8FF\u00F9\u00F1\u00E1\uF8FF\u00F9\u00F1\u00E0\uF8FF\u00F9\u00F1\u00E2\uF8FF\u00F9\u00F1\u00E4\uF8FF\u00F9\u00F1\u00E3\uF8FF\u00F9\u00F1\u00E5\uF8FF\u00F9\u00F1\u00E7\uF8FF\u00F9\u00F1\u00E9\uF8FF\u00F9\u00F1\u00E8\uF8FF\u00F9\u00F1\u00EA\uF8FF\u00F9\u00F1\u00EB\uF8FF\u00F9\u00F1\u00ED\uF8FF\u00F9\u00F1\u00EC\uF8FF\u00F9\u00F1\u00EE\uF8FF\u00F9\u00F1\u00EF\uF8FF\u00F9\u00F1\u00F1\uF8FF\u00F9\u00F1\u00F3\uF8FF\u00F9\u00F1\u00F2\uF8FF\u00F9\u00F1\u00F4\uF8FF\u00F9\u00F1\u00F6\uF8FF\u00F9\u00F1\u00F5\uF8FF\u00F9\u00F1\u00FA\uF8FF\u00F9\u00F1\u00F9\uF8FF\u00F9\u00F1\u00FB\uF8FF\u00F9\u00F1\u00FC"

def ALPHA_SCRIPT : String :=
  "\uF8FF\u00F9\u00ED\u00FA\u201A\u00D1\u00A8\uF8FF\u00F9\u00ED\u00FB\uF8FF\u00F9\u00ED\u00FC\u201A\u00D1\u221E\u201A\u00D1\u00B1\uF8FF\u00F9\u00ED\u00A2\u201A\u00D1\u00E3\u201A\u00D1\u00EA\uF8FF\u00F9\u00ED\u2022\uF8FF\u00F9\u00ED\u00B6\u201A\u00D1\u00ED\u201A\u00D1\u2265\uF8FF\u00F9\u00ED\u00A9\uF8FF\u00F9\u00ED\u2122\uF8FF\u00F9\u00ED\u00B4\uF8FF\u00F9\u00ED\u00A8\u201A\u00D1\u00F5\uF8FF\u00F9\u00ED\u00C6\uF8FF\u00F9\u00ED\u00D8\uF8FF\u00F9\u00ED\u221E\uF8FF\u00F9\u00ED\u00B1\uF8FF\u00F9\u00ED\u2264\uF8FF\u00F9\u00ED\u2265\uF8FF\u00F9\u00ED\u00A5\uF8FF\u00F9\u00ED\u00B5\uF8FF\u00F9\u00ED\u2202\uF8FF\u00F9\u00ED\u2211\uF8FF\u00F9\u00ED\u220F\uF8FF\u00F9\u00ED\u03C0\u201A\u00D1\u00D8\uF8FF\u00F9\u00ED\u00AA\u201A\u00D1\u00E4\uF8FF\u00F9\u00ED\u03A9\uF8FF\u00F9\u00ED\u00E6\uF8FF\u00F9\u00ED\u00F8\uF8FF\u00F9\u00EC\u00C4\uF8FF\u00F9\u00EC\u00C5\uF8FF\u00F9\u00EC\u00C7\uF8FF\u00F9\u00EC\u00C9\u201A\u00D1\u00A5\uF8FF\u00F9\u00EC\u00D6\uF8FF\u00F9\u00EC\u00DC\uF8FF\u00F9\u00EC\u00E1\uF8FF\u00F9\u00EC\u00E0\uF8FF\u00F9\u00EC\u00E2\uF8FF\u00F9\u00EC\u00E4\uF8FF\u00F9\u00EC\u00E3\uF8FF\u00F9\u00EC\u00E5\uF8FF\u00F9\u00EC\u00E7\uF8FF\u00F9\u00EC\u00E9\uF8FF\u00F9\u00EC\u00E8"

def ALPHA_BOLD : String :=
  "\uF8FF\u00F9\u00EA\u00C4\uF8FF\u00F9\u00EA\u00C5\uF8FF\u00F9\u00EA\u00C7\uF8FF\u00F9\u00EA\u00C9\uF8FF\u00F9\u00EA\u00D1\uF8FF\u00F9\u00EA\u00D6\uF8FF\u00F9\u00EA\u00DC\uF8FF\u00F9\u00EA\u00E1\uF8FF\u00F9\u00EA\u00E0\uF8FF\u00F9\u00EA\u00E2\uF8FF\u00F9\u00EA\u00E4\uF8FF\u00F9\u00EA\u00E3\uF8FF\u00F9\u00EA\u00E5\uF8FF\u00F9\u00EA\u00E7\uF8FF\u00F9\u00EA\u00E9\uF8FF\u00F9\u00EA\u00E8\uF8FF\u00F9\u00EA\u00EA\uF8FF\u00F9\u00EA\u00EB\uF8FF\u00F9\u00EA\u00ED\uF8FF\u00F9\u00EA\u00EC\uF8FF\u00F9\u00EA\u00EE\uF8FF\u00F9\u00EA\u00EF\uF8FF\u00F9\u00EA\u00F1\uF8FF\u00F9\u00EA\u00F3\uF8FF\u00F9\u00EA\u00F2\uF8FF\u00F9\u00EA\u00F4\uF8FF\u00F9\u00EA\u00F6\uF8FF\u00F9\u00EA\u00F5\uF8FF\u00F9\u00EA\u00FA\uF8FF\u00F9\u00EA\u00F9\uF8FF\u00F9\u00EA\u00FB\uF8FF\u00F9\u00EA\u00FC\uF8FF\u00F9\u00EA\u2020\uF8FF\u00F9\u00EA\u00B0\uF8FF\u00F9\u00EA\u00A2\uF8FF\u00F9\u00EA\u00A3\uF8FF\u00F9\u00EA\u00A7\uF8FF\u00F9\u00EA\u2022\uF8FF\u00F9\u00EA\u00B6\uF8FF\u00F9\u00EA\u00DF\uF8FF\u00F9\u00EA\u00AE\uF8FF\u00F9\u00EA\u00A9\uF8FF\u00F9\u00EA\u2122\uF8FF\u00F9\u00EA\u00B4\uF8FF\u00F9\u00EA\u00A8\uF8FF\u00F9\u00EA\u2260\uF8FF\u00F9\u00EA\u00C6\uF8FF\u00F9\u00EA\u00D8\uF8FF\u00F9\u00EA\u221E\uF8FF\u00F9\u00EA\u00B1\uF8FF\u00F9\u00EA\u2264\uF8FF\u00F9\u00EA\u2265"

def ALPHA_ITALIC : String :=
  "\uF8FF\u00F9\u00EA\u00A5\uF8FF\u00F9\u00EA\u00B5\uF8FF\u00F9\u00EA\u2202\uF8FF\u00F9\u00EA\u2211\uF8FF\u00F9\u00EA\u220F\uF8FF\u00F9\u00EA\u03C0\uF8FF\u00F9\u00EA\u222B\uF8FF\u00F9\u00EA\u00AA\uF8FF\u00F9\u00EA\u00BA\uF8FF\u00F9\u00EA\u03A9\uF8FF\u00F9\u00EA\u00E6\uF8FF\u00F9\u00EA\u00F8\uF8FF\u00F9\u00EB\u00C4\uF8FF\u00F9\u00EB\u00C5\uF8FF\u00F9\u00EB\u00C7\uF8FF\u00F9\u00EB\u00C9\uF8FF\u00F9\u00EB\u00D1\uF8FF\u00F9\u00EB\u00D6\uF8FF\u00F9\u00EB\u00DC\uF8FF\u00F9\u00EB\u00E1\uF8FF\u00F9\u00EB\u00E0\uF8FF\u00F9\u00EB\u00E2\uF8FF\u00F9\u00EB\u00E4\uF8FF\u00F9\u00EB\u00E3\uF8FF\u00F9\u00EB\u00E5\uF8FF\u00F9\u00EB\u00E7\uF8FF\u00F9\u00EB\u00E9\uF8FF\u00F9\u00EB\u00E8\uF8FF\u00F9\u00EB\u00EA\uF8FF\u00F9\u00EB\u00EB\uF8FF\u00F9\u00EB\u00ED\uF8FF\u00F9\u00EB\u00EC\uF8FF\u00F9\u00EB\u00EE\u201A\u00D1\u00E9\uF8FF\u00F9\u00EB\u00F1\uF8FF\u00F9\u00EB\u00F3\uF8FF\u00F9\u00EB\u00F2\uF8FF\u00F9\u00EB\u00F4\uF8FF\u00F9\u00EB\u00F6\uF8FF\u00F9\u00EB\u00F5\uF8FF\u00F9\u00EB\u00FA\uF8FF\u00F9\u00EB\u00F9\uF8FF\u00F9\u00EB\u00FB\uF8FF\u00F9\u00EB\u00FC\uF8FF\u00F9\u00EB\u2020\uF8FF\u00F9\u00EB\u00B0\uF8FF\u00F9\u00EB\u00A2\uF8FF\u00F9\u00EB\u00A3\uF8FF\u00F9\u00EB\u00A7\uF8FF\u00F9\u00EB\u2022\uF8FF\u00F9\u00EB\u00B6\uF8FF\u00F9\u00EB\u00DF"

def ALPHA_BOLD_ITALIC : String :=
  "\uF8FF\u00F9\u00EB\u00AE\uF8FF\u00F9\u00EB\u00A9\uF8FF\u00F9\u00EB\u2122\uF8FF\u00F9\u00EB\u00B4\uF8FF\u00F9\u00EB\u00A8\uF8FF\u00F9\u00EB\u2260\uF8FF\u00F9\u00EB\u00C6\uF8FF\u00F9\u00EB\u00D8\uF8FF\u00F9\u00EB\u221E\uF8FF\u00F9\u00EB\u00B1\uF8FF\u00F9\u00EB\u2264\uF8FF\u00F9\u00EB\u2265\uF8FF\u00F9\u00EB\u00A5\uF8FF\u00F9\u00EB\u00B5\uF8FF\u00F9\u00EB\u2202\uF8FF\u00F9\u00EB\u2211\uF8FF\u00F9\u00EB\u220F\uF8FF\u00F9\u00EB\u03C0\uF8FF\u00F9\u00EB\u222B\uF8FF\u00F9\u00EB\u00AA\uF8FF\u00F9\u00EB\u00BA\uF8FF\u00F9\u00EB\u03A9\uF8FF\u00F9\u00EB\u00E6\uF8FF\u00F9\u00EB\u00F8\uF8FF\u00F9\u00ED\u00C4\uF8FF\u00F9\u00ED\u00C5\uF8FF\u00F9\u00ED\u00C7\uF8FF\u00F9\u00ED\u00C9\uF8FF\u00F9\u00ED\u00D1\uF8FF\u00F9\u00ED\u00D6\uF8FF\u00F9\u00ED\u00DC\uF8FF\u00F9\u00ED\u00E1\uF8FF\u00F9\u00ED\u00E0\uF8FF\u00F9\u00ED\u00E2\uF8FF\u00F9\u00ED\u00E4\uF8FF\u00F9\u00ED\u00E3\uF8FF\u00F9\u00ED\u00E5\uF8FF\u00F9\u00ED\u00E7\uF8FF\u00F9\u00ED\u00E9\uF8FF\u00F9\u00ED\u00E8\uF8FF\u00F9\u00ED\u00EA\uF8FF\u00F9\u00ED\u00EB\uF8FF\u00F9\u00ED\u00ED\uF8FF\u00F9\u00ED\u00EC\uF8FF\u00F9\u00ED\u00EE\uF8FF\u00F9\u00ED\u00EF\uF8FF\u00F9\u00ED\u00F1\uF8FF\u00F9\u00ED\u00F3\uF8FF\u00F9\u00ED\u00F2\uF8FF\u00F9\u00ED\u00F4\uF8FF\u00F9\u00ED\u00F6\uF8FF\u00F9\u00ED\u00F5"

/-- Model of `replace_matching_characters`: map each character through the
`from_set → to_set` table built by zipping the two alphabets (the `HashMap`
of the source; `from_set` has distinct characters, so first-match lookup
agrees with it). -/
def replace_matching_characters (input_str from_set to_set : String) : String :=
  let mapping := from_set.data.zip to_set.data
  ⟨input_str.data.map (fun c =>
    match mapping.lookup c with
    | some d => d
    | none => c)⟩

/-- Model of `highlight_for_user`. -/
def highlight_for_user (user : String) (rtd : Rtd) : String :=
  match rtd.user_highlights.lookup user with
  | some mode =>
    match mode with
    | .Normal => user
    | .Fraktur => replace_matching_characters user ALPHA_REGULAR ALPHA_FRAKTUR
    | .FrakturBold => replace_matching_characters user ALPHA_REGULAR ALPHA_FRAKTUR_BOLD
    | .Script => replace_matching_characters user ALPHA_REGULAR ALPHA_SCRIPT
    | .Bold => replace_matching_characters user ALPHA_REGULAR ALPHA_BOLD
    | .Italic => replace_matching_characters user ALPHA_REGULAR ALPHA_ITALIC
    | .BoldItalic => replace_matching_characters user ALPHA_REGULAR ALPHA_BOLD_ITALIC
  | none => user

/-! ## Command dispatch -/

/-- One reply as `send_reply` renders it before `send_privmsg`. -/
def send_reply (user : String) (rtd : Rtd) (result : Except Error String) : String :=
  match result with
  | .ok reply => highlight_for_user user rtd ++ ": " ++ reply
  | .error err => highlight_for_user user rtd ++ ": error: " ++ errDisplay err

/-- Model of `extract_url`'s token selection: `msg.split(' ').take(2).last().unwrap()`
(the split always yields at least one part, so the `unwrap` cannot fail). -/
def extract_url_token (msg : String) : String :=
  match (splitOn ' ' msg.data).take 2 with
  | [a] => ⟨a⟩
  | [_, b] => ⟨b⟩
  | _ => ""

/-- Model of `extract_url`: the token after the command word, capped at 200 bytes
(`str::len` counts UTF-8 bytes). -/
def extract_url (msg : String) : Except Error String :=
  let url := extract_url_token msg
  if url.utf8ByteSize ≤ 200 then .ok url else .error .UrlTooLong

/-- The authorization capability handed to `dispatch_message`: it returns
`Ok`/`Err` and the replies it sent on its own while running. -/
abbrev AuthFn := Unit → Except Error Unit × List String

/-- Turn a possibly-panicking action result into a reply-vector item; `none`
means the panic propagates out of `dispatch_message` itself. -/
def Outcome.toItem : Outcome String → Option (Except Error String)
  | .ok s => some (.ok s)
  | .err e => some (.error e)
  | .panicked => none

/-- Model of `dispatch_message`: returns the reply vector (or the propagated error /
panic), the external invocations performed, and the replies sent by the
injected authorization check while it ran.  The source's `match` over the
message with literal arms and `starts_with` guards is an ordered test
cascade, modelled as such. -/
def dispatch_message (w : World) (message user : String) (rtd : Rtd)
    (check_authorization : AuthFn) :
    Outcome (List (Except Error String)) × List ExtCall × List String :=
  if message = "!help" then
    (.ok [get_help], [], [])
  else if message = "!status" then
    let (r, calls) := get_status w rtd
    match r.toItem with
    | none => (.panicked, calls, [])
    | some item => (.ok [item], calls, [])
  else if message = "!stopscripts" then
    match check_authorization () with
    | (.error e, sends) => (.err e, [], sends)
    | (.ok _, sends) =>
      let (r, calls) := stop_scripts
      (.ok [r], calls, sends)
  else if message = "!contscripts" then
    match check_authorization () with
    | (.error e, sends) => (.err e, [], sends)
    | (.ok _, sends) =>
      let (r, calls) := cont_scripts
      (.ok [r], calls, sends)
  else if strStartsWith message "!s " = true then
    match extract_url message with
    | .error e => (.err e, [], [])
    | .ok url_or_folder =>
      if strStartsWith url_or_folder "https://" || strStartsWith url_or_folder "http://" then
        match YoutubeDescriptor.from_url url_or_folder with
        | .error e => (.err e, [], [])
        | .ok d0 =>
          match YoutubeDescriptor.canonicalize w d0 with
          | (.error e, ccalls) => (.err e, ccalls, [])
          | (.ok descriptor, ccalls) =>
            let (r, scalls) := check_stash w descriptor
            (.ok [r], ccalls ++ scalls, [])
      else
        let (r, calls) := check_folder w url_or_folder
        (.ok [r], calls, [])
  else if strStartsWith message "!a " = true then
    match check_authorization () with
    | (.error e, sends) => (.err e, [], sends)
    | (.ok _, sends) =>
      match extract_url message with
      | .error e => (.err e, [], sends)
      | .ok url =>
        match YoutubeDescriptor.from_url url with
        | .error e => (.err e, [], sends)
        | .ok d0 =>
          match YoutubeDescriptor.canonicalize w d0 with
          | (.error e, ccalls) => (.err e, ccalls, sends)
          | (.ok descriptor, ccalls) =>
            let (r, acalls) := archive w url descriptor .Normal user rtd
            match r.toItem with
            | none => (.panicked, ccalls ++ acalls, sends)
            | some item => (.ok [item], ccalls ++ acalls, sends)
  else if strStartsWith message "!sa " = true then
    match check_authorization () with
    | (.error e, sends) => (.err e, [], sends)
    | (.ok _, sends) =>
      match extract_url message with
      | .error e => (.err e, [], sends)
      | .ok url =>
        match YoutubeDescriptor.from_url url with
        | .error e => (.err e, [], sends)
        | .ok d0 =>
          match YoutubeDescriptor.canonicalize w d0 with
          | (.error e, ccalls) => (.err e, ccalls, sends)
          | (.ok descriptor, ccalls) =>
            let (r1, scalls) := check_stash w descriptor
            let (r2, acalls) := archive w url descriptor .Normal user rtd
            match r2.toItem with
            | none => (.panicked, ccalls ++ scalls ++ acalls, sends)
            | some item => (.ok [r1, item], ccalls ++ scalls ++ acalls, sends)
  else if strStartsWith message "!averybig " = true then
    match check_authorization () with
    | (.error e, sends) => (.err e, [], sends)
    | (.ok _, sends) =>
      match extract_url message with
      | .error e => (.err e, [], sends)
      | .ok url =>
        match YoutubeDescriptor.from_url url with
        | .error e => (.err e, [], sends)
        | .ok d0 =>
          match YoutubeDescriptor.canonicalize w d0 with
          | (.error e, ccalls) => (.err e, ccalls, sends)
          | (.ok descriptor, ccalls) =>
            let (r, acalls) := archive w url descriptor .VeryBig user rtd
            match r.toItem with
            | none => (.panicked, ccalls ++ acalls, sends)
            | some item => (.ok [item], ccalls ++ acalls, sends)
  else if strStartsWith message "!saverybig " = true then
    match check_authorization () with
    | (.error e, sends) => (.err e, [], sends)
    | (.ok _, sends) =>
      match extract_url message with
      | .error e => (.err e, [], sends)
      | .ok url =>
        match YoutubeDescriptor.from_url url with
        | .error e => (.err e, [], sends)
        | .ok d0 =>
          match YoutubeDescriptor.canonicalize w d0 with
          | (.error e, ccalls) => (.err e, ccalls, sends)
          | (.ok descriptor, ccalls) =>
            let (r1, scalls) := check_stash w descriptor
            let (r2, acalls) := archive w url descriptor .VeryBig user rtd
            match r2.toItem with
            | none => (.panicked, ccalls ++ scalls ++ acalls, sends)
            | some item => (.ok [r1, item], ccalls ++ scalls ++ acalls, sends)
  else if strStartsWith message "!abort " = true then
    match check_authorization () with
    | (.error e, sends) => (.err e, [], sends)
    | (.ok _, sends) =>
      match extract_url message with
      | .error e => (.err e, [], sends)
      | .ok task =>
        let (r, calls) := abort task
        (.ok [r], calls, sends)
  else
    (.ok [], [], [])

/-! ## Message handling -/

/-- The fields of an inbound `PRIVMSG` that `handle_message` reads.  `origin`
is the connection prefix of the message (`message.prefix` in the irc
library); `responseTarget` is `message.response_target()`. -/
structure Msg where
  origin : Option String
  nick : String
  responseTarget : String
  text : String

def NO_WEBCHAT_MESSAGE : String :=
  "webchat users are not authorized; use any other IRC client, or ask someone else to do it"

/-- Model of `WEBCHAT_RE`: `\A.+!webchat@.+\z` — a non-empty newline-free run, the
literal `!webchat@`, and another non-empty newline-free run. -/
def webchatScan : List Char → Bool
  | [] => false
  | s@(c :: t) =>
    (("!webchat@").data.isPrefixOf s &&
      !(List.drop 9 s).isEmpty && (List.drop 9 s).all (fun x => x ≠ '\n')) ||
    (c ≠ '\n' && webchatScan t)

def webchat_match (p : String) : Bool :=
  match p.data with
  | [] => false
  | c :: t => c ≠ '\n' && webchatScan t

/-- The `check_authorization` closure of `handle_message`: reject relayed
(webchat) connection prefixes, sending the fixed warning while doing so. -/
def webchat_authorization (m : Msg) (rtd : Rtd) : AuthFn := fun _ =>
  match m.origin with
  | some p =>
    if webchat_match p then
      (.error .NotAuthorized, [send_reply m.nick rtd (.ok NO_WEBCHAT_MESSAGE)])
    else (.ok (), [])
  | none => (.ok (), [])

/-- Model of `handle_message` on a `PRIVMSG`, returning the IRC lines sent (via
`send_privmsg` and `send`) in order, and the external invocations performed.
The debug `eprintln!` goes to the terminal, not to IRC, and is not modelled. -/
def handle_message (w : World) (m : Msg) (rtd : Rtd) : List String × List ExtCall :=
  let user := m.nick
  let channel := rtd.command_channel
  let check_authorization : AuthFn := webchat_authorization m rtd
  if m.responseTarget = channel then
    let kick : List String :=
      if user = "Ryz" ∧ strStartsWith m.text "!archive " = true then
        ["KICK " ++ channel ++ " Ryz unknown command"]
      else []
    match dispatch_message w m.text user rtd check_authorization with
    | (.panicked, calls, authSends) => (kick ++ authSends, calls)
    | (.err e, calls, authSends) =>
      (kick ++ authSends ++ [user ++ ": error: " ++ errDisplay e], calls)
    | (.ok replies, calls, authSends) =>
      (kick ++ authSends ++ replies.map (send_reply user rtd), calls)
  else ([], [])

/-! ## Specification-side definitions

These definitions transcribe wording of the specification (not the source);
the theorems below compare the source-derived functions against them. -/

/-- No occurrence of any of the six rewrite patterns of the URL normalizer. -/
def noRewritePattern (s : String) : Prop :=
  containsSub s.data ("http://").data = false ∧
  containsSub s.data ("https://m.youtube.com/").data = false ∧
  containsSub s.data ("https://youtube.com/").data = false ∧
  containsSub s.data ("https://youtu.be/").data = false ∧
  containsSub s.data ("?disable_polymer=1").data = false ∧
  containsSub s.data ("&disable_polymer=1").data = false

instance (s : String) : Decidable (noRewritePattern s) := by
  unfold noRewritePattern; infer_instance

/-- A session-listing line with a non-numeric (or absent) timestamp field or
with no session-name field (no space). -/
def sessionLineMalformed (line : List Char) : Bool :=
  (parseU64 (splitOnce line).1).isNone || ((splitOnce line).2).isNone

/-- The `Channel`/`User` canonicalization behaviour as the specification
states it: if a username is extracted from the page, the canonical kind is
`User`, the id is the username, and the folder is the username unless the
static folder-exception table overrides it; if no username is found, the
canonical kind is `Channel` with the id and the folder both the channel id
extracted from the page, or the `CouldNotGetChannelIdentifier` error when
that extraction also fails. -/
def channelUserCanonicalizationSpec (page : String) :
    Except Error CanonicalizedYoutubeDescriptor :=
  match extract_username page with
  | some username =>
    .ok ⟨username,
      (match FOLDER_EXCEPTIONS.lookup username with
       | some overrideFolder => overrideFolder
       | none => username), .User⟩
  | none =>
    match extract_channel_id page with
    | .ok channel_id => .ok ⟨channel_id, channel_id, .Channel⟩
    | .error _ => .error .CouldNotGetChannelIdentifier

/-- The commands that require authorization. -/
def authRequiredCommand (msg : String) : Bool :=
  msg == "!stopscripts" || msg == "!contscripts" || strStartsWith msg "!a " ||
  strStartsWith msg "!sa " || strStartsWith msg "!averybig " ||
  strStartsWith msg "!saverybig " || strStartsWith msg "!abort "

/-- The commands whose argument token goes through `extract_url`. -/
def commandWithUrlArg (msg : String) : Bool :=
  strStartsWith msg "!s " || strStartsWith msg "!a " || strStartsWith msg "!sa " ||
  strStartsWith msg "!averybig " || strStartsWith msg "!saverybig " ||
  strStartsWith msg "!abort "

/-- An authorization capability that always grants (an ordinary, non-webchat
sender). -/
def authAlways : AuthFn := fun _ => (.ok (), [])

/-- Every username and every channel id that the markup extractors can
produce from a page served by `w` matches the strict identifier pattern. -/
def worldExtractionsValid (w : World) : Prop :=
  ∀ u : String,
    (∀ name, extract_username (w.pageContents u) = some name → validTaskName name = true) ∧
    (∀ cid, extract_channel_id (w.pageContents u) = .ok cid → validTaskName cid = true)

/-! ## General lemmas -/

theorem repAllF_of_not_contains (pat rep : List Char) (n : Nat) (s : List Char)
    (h : containsSub s pat = false) : repAllF pat rep n s = s := by
  induction n generalizing s with
  | zero => rfl
  | succ n ih =>
    cases s with
    | nil => rfl
    | cons c t =>
      simp only [containsSub, Bool.or_eq_false_iff] at h
      simp only [repAllF, h.1, if_neg]
      rw [ih t h.2]
      simp [h.1]

theorem strReplace_of_not_contains (s pat rep : String)
    (h : containsSub s.data pat.data = false) : strReplace s pat rep = s := by
  unfold strReplace
  rw [repAllF_of_not_contains _ _ _ _ h]

/-- A URL containing none of the six rewrite patterns is left unchanged by the
normalizer. -/
theorem fix_youtube_url_of_noRewritePattern (s : String) (h : noRewritePattern s) :
    fix_youtube_url s = s := by
  obtain ⟨h1, h2, h3, h4, h5, h6⟩ := h
  simp only [fix_youtube_url, strReplace_of_not_contains s _ _ h1,
    strReplace_of_not_contains s _ _ h2, strReplace_of_not_contains s _ _ h3,
    strReplace_of_not_contains s _ _ h4, strReplace_of_not_contains s _ _ h5,
    strReplace_of_not_contains s _ _ h6]

theorem ne_of_strStartsWith {m p lit : String} (h : strStartsWith m p = true)
    (hlit : p.data.isPrefixOf lit.data = false) : m ≠ lit := by
  intro he
  rw [he] at h
  unfold strStartsWith at h
  rw [h] at hlit
  cases hlit

theorem isPrefixOf_false_of_isPrefixOf {p q l : List Char} (hp : p.isPrefixOf l = true)
    (h1 : p.isPrefixOf q = false) (h2 : q.isPrefixOf p = false) : q.isPrefixOf l = false := by
  induction p generalizing q l with
  | nil => simp [List.isPrefixOf] at h1
  | cons a as ih =>
    cases l with
    | nil => simp [List.isPrefixOf] at hp
    | cons b bs =>
      cases q with
      | nil => simp [List.isPrefixOf] at h2
      | cons c cs =>
        simp only [List.isPrefixOf, Bool.and_eq_true, beq_iff_eq] at hp
        obtain ⟨rfl, hpbs⟩ := hp
        simp only [List.isPrefixOf, Bool.and_eq_false_iff, beq_eq_false_iff_ne] at h1 h2 ⊢
        by_cases hac : a = c
        · subst hac
          rcases h1 with h1 | h1
          · exact absurd rfl h1
          rcases h2 with h2 | h2
          · exact absurd rfl h2
          exact Or.inr (ih hpbs h1 h2)
        · exact Or.inl (fun hca => hac hca.symm)

theorem strStartsWith_false_of {m p q : String} (h : strStartsWith m p = true)
    (h1 : p.data.isPrefixOf q.data = false) (h2 : q.data.isPrefixOf p.data = false) :
    strStartsWith m q = false :=
  isPrefixOf_false_of_isPrefixOf h h1 h2

theorem extract_channel_id_error {p : String} {e : Error}
    (h : extract_channel_id p = .error e) : e = .CouldNotGetChannelIdentifier := by
  unfold extract_channel_id at h
  split at h
  · cases h
  · split at h
    · cases h
    · injection h with h
      exact h.symm

theorem FOLDER_EXCEPTIONS_lookup {u v : String} (h : FOLDER_EXCEPTIONS.lookup u = some v) :
    v = "UCsT0YIqwnpJCM-mx7-gSA4Q" := by
  unfold FOLDER_EXCEPTIONS at h
  unfold List.lookup at h
  split at h
  · injection h with h
    exact h.symm
  · unfold List.lookup at h
    cases h

theorem isIdChar_of_isUpperHex {c : Char} (h : isUpperHex c = true) : isIdChar c = true := by
  unfold isUpperHex at h
  unfold isIdChar
  rcases Bool.or_eq_true_iff.1 h with hd | hx
  · simp [hd]
  · rw [Bool.and_eq_true] at hx
    obtain ⟨hA', hF'⟩ := hx
    have hA : (65 : Nat) ≤ c.val.toNat := of_decide_eq_true hA'
    have hF : c.val.toNat ≤ (70 : Nat) := of_decide_eq_true hF'
    have hup : c.isUpper = true := by
      unfold Char.isUpper
      rw [Bool.and_eq_true]
      exact ⟨decide_eq_true (show (65 : Nat) ≤ c.val.toNat from hA),
        decide_eq_true (show c.val.toNat ≤ (90 : Nat) from Nat.le_trans hF (by decide))⟩
    simp [Char.isAlpha, hup]

/-- If the greedy parameter scan matched, the per-position test matched at
some position. -/
theorem paramScan_inv {tryAt : List Char → Option (List Char)} {l r : List Char}
    (h : paramScan tryAt l = some r) : ∃ t, tryAt t = some r := by
  induction l with
  | nil => cases h
  | cons c t ih =>
    unfold paramScan at h
    split at h
    · rename_i heq
      split at heq
      · cases heq
      · injection h with h
        exact ih (h ▸ heq)
    · split at h
      · exact ⟨t, h⟩
      · cases h

theorem listParamTry_inv {idLen : Nat} {cls : Char → Bool} {t r : List Char}
    (h : listParamTry idLen cls t = some r) :
    ∃ idl, r = 'P' :: 'L' :: idl ∧ idl.all cls = true := by
  simp only [listParamTry] at h
  split at h
  · split at h
    · rename_i hcond
      injection h with h
      rw [Bool.and_eq_true, Bool.and_eq_true] at hcond
      exact ⟨_, h.symm, hcond.1.2⟩
    · cases h
  · cases h

theorem classifyFixed_playlist {u : String} {id : String}
    (h : classifyFixed u = .ok (.Playlist id)) :
    oldPlaylistMatch u = some id ∨ newPlaylistMatch u = some id := by
  unfold classifyFixed at h
  split at h
  · cases h
  · cases hw : watchMatch u <;> simp only [hw] at h
    · cases ho : oldPlaylistMatch u <;> simp only [ho] at h
      · cases hn : newPlaylistMatch u <;> simp only [hn] at h
        · cases hc : channelMatch u <;> simp only [hc] at h
          · cases hu : userMatch u <;> simp only [hu] at h
            · cases h
            · simp at h
          · simp at h
        · injection h with h
          injection h with h
          subst h
          exact Or.inr rfl
      · injection h with h
        injection h with h
        subst h
        exact Or.inl rfl
    · simp at h

/-- Playlist ids produced by classification match the strict identifier
pattern. -/
theorem playlist_id_valid {url : String} {id : String}
    (h : YoutubeDescriptor.from_url url = .ok (.Playlist id)) : validTaskName id = true := by
  have hm := classifyFixed_playlist h
  have hpl : ∃ idl : List Char, id.data = 'P' :: 'L' :: idl ∧ idl.all isIdChar = true := by
    rcases hm with hm | hm
    · unfold oldPlaylistMatch at hm
      split at hm
      · rw [Option.map_eq_some'] at hm
        obtain ⟨l, hscan, rfl⟩ := hm
        obtain ⟨t, htry⟩ := paramScan_inv hscan
        obtain ⟨idl, rfl, hall⟩ := listParamTry_inv htry
        refine ⟨idl, rfl, ?_⟩
        simp only [List.all_eq_true] at hall ⊢
        exact fun c hc => isIdChar_of_isUpperHex (hall c hc)
      · cases hm
    · unfold newPlaylistMatch at hm
      split at hm
      · rw [Option.map_eq_some'] at hm
        obtain ⟨l, hscan, rfl⟩ := hm
        obtain ⟨t, htry⟩ := paramScan_inv hscan
        obtain ⟨idl, rfl, hall⟩ := listParamTry_inv htry
        exact ⟨idl, rfl, hall⟩
      · cases hm
  obtain ⟨idl, hdata, hall⟩ := hpl
  unfold validTaskName
  rw [hdata, Bool.and_eq_true]
  refine ⟨rfl, ?_⟩
  simp only [List.all_eq_true] at hall ⊢
  intro c hc
  rcases List.mem_cons.1 hc with rfl | hc
  · decide
  rcases List.mem_cons.1 hc with rfl | hc
  · decide
  exact hall c hc

/-- If the page extractions of `w` only produce identifiers matching the
strict pattern, so does the folder canonicalized for a channel or user. -/
theorem canonicalizeChannelOrUser_folder_valid {w : World} {d : YoutubeDescriptor}
    {c : CanonicalizedYoutubeDescriptor}
    (h : (canonicalizeChannelOrUser w d).1 = .ok c)
    (hw : worldExtractionsValid w) : validTaskName c.folder = true := by
  simp only [canonicalizeChannelOrUser, contents_for_url] at h
  split at h
  · rename_i hun
    split at h
    · cases h
    · rename_i cid hcid
      injection h with h
      subst h
      exact (hw d.to_url).2 cid hcid
  · rename_i username hun
    injection h with h
    subst h
    simp only
    split
    · rename_i custom hcu
      rw [FOLDER_EXCEPTIONS_lookup hcu]
      decide
    · exact (hw d.to_url).1 username hun

/-- A successfully canonicalized video keeps its kind and id. -/
theorem canonicalize_video_shape {w : World} {vid : String}
    {c : CanonicalizedYoutubeDescriptor}
    (h : (YoutubeDescriptor.canonicalize w (.Video vid)).1 = .ok c) :
    c.kind = .Video ∧ c.id = vid := by
  simp only [YoutubeDescriptor.canonicalize, contents_for_url] at h
  split at h
  · cases h
  · split at h
    · cases h
    · injection h with h
      subst h
      exact ⟨rfl, rfl⟩

/-! ## C1 — folder validity after classification + canonicalization -/

/-- C1 (counterexample): the claim "classification followed by
canonicalization yields a folder matching `[-_A-Za-z0-9]+`, checked at
canonicalization time" is false.  For the accepted URL
`https://www.youtube.com/user/jblow888` and a page fetch whose markup names
the user `foo bar`, canonicalization succeeds (no check is performed) and the
resulting folder contains a space. -/
theorem c1_counterexample :
    YoutubeDescriptor.from_url "https://www.youtube.com/user/jblow888" =
      .ok (.User "jblow888") ∧
    (YoutubeDescriptor.canonicalize
      ⟨fun _ => "<link itemprop=\"url\" href=\"http://www.youtube.com/user/foo bar\">",
        "", fun _ => "", ""⟩
      (.User "jblow888")).1 = .ok ⟨"foo bar", "foo bar", .User⟩ ∧
    validTaskName "foo bar" = false := by
  refine ⟨by decide, by decide, by decide⟩

/-- C1 (amended): canonicalization itself performs no identifier-pattern
check.  For every accepted URL and page-fetch world whose extracted usernames
and channel ids match the strict pattern `[-_A-Za-z0-9]+`, the canonicalized
folder matches the pattern: playlist folders are forced into it by the
playlist id patterns, and all other folders are an extracted username, a
folder-exception override, or an extracted channel id. -/
theorem c1_folder_valid (w : World) (url : String) (d : YoutubeDescriptor)
    (c : CanonicalizedYoutubeDescriptor)
    (hclass : YoutubeDescriptor.from_url url = .ok d)
    (hcanon : (YoutubeDescriptor.canonicalize w d).1 = .ok c)
    (hw : worldExtractionsValid w) : validTaskName c.folder = true := by
  cases d with
  | User id => exact canonicalizeChannelOrUser_folder_valid hcanon hw
  | Channel id => exact canonicalizeChannelOrUser_folder_valid hcanon hw
  | Playlist id =>
    simp only [YoutubeDescriptor.canonicalize] at hcanon
    injection hcanon with hcanon
    subst hcanon
    exact playlist_id_valid hclass
  | Video id =>
    simp only [YoutubeDescriptor.canonicalize, contents_for_url] at hcanon
    split at hcanon
    · cases hcanon
    · split at hcanon
      · cases hcanon
      · rename_i c' calls2 heq
        injection hcanon with hcanon
        subst hcanon
        exact canonicalizeChannelOrUser_folder_valid (c := c') (by rw [heq]) hw

/-- C1 (witness for the amended theorem). -/
theorem c1_folder_valid_witness :
    validTaskName
      (⟨"jblow888", "jblow888", .User⟩ : CanonicalizedYoutubeDescriptor).folder = true := by
  refine c1_folder_valid
    ⟨fun _ => "<link itemprop=\"url\" href=\"http://www.youtube.com/user/jblow888\">",
      "", fun _ => "", ""⟩
    "https://www.youtube.com/user/jblow888" (.User "jblow888") _
    (by decide) (by decide) ?_
  intro u
  constructor
  · intro name hname
    have h0 : extract_username
        "<link itemprop=\"url\" href=\"http://www.youtube.com/user/jblow888\">" =
        some "jblow888" := by decide
    rw [h0] at hname
    injection hname with hname
    subst hname
    decide
  · intro cid hcid
    have h0 : extract_channel_id
        "<link itemprop=\"url\" href=\"http://www.youtube.com/user/jblow888\">" =
        .error .CouldNotGetChannelIdentifier := by decide
    rw [h0] at hcid
    cases hcid

/-! ## C5 — Channel/User canonicalization behaviour -/

theorem canonicalizeChannelOrUser_eq_spec (w : World) (d : YoutubeDescriptor) :
    (canonicalizeChannelOrUser w d).1 =
      channelUserCanonicalizationSpec (w.pageContents d.to_url) := by
  simp only [canonicalizeChannelOrUser, channelUserCanonicalizationSpec, contents_for_url]
  cases hun : extract_username (w.pageContents d.to_url) <;> simp only [hun]
  cases hcid : extract_channel_id (w.pageContents d.to_url) <;> simp only [hcid]
  rw [extract_channel_id_error hcid]

/-- C5: for every `Channel` or `User` descriptor and every fetched page
content, canonicalization returns kind `User` with the extracted username as
id and (unless overridden by the static folder-exception table) as folder;
with no extractable username it returns kind `Channel` with the extracted
channel id as both id and folder, or `CouldNotGetChannelIdentifier` when that
extraction also fails — i.e. it agrees with the specification transcription
`channelUserCanonicalizationSpec` on the fetched page. -/
theorem c5_channel_user_canonicalization (w : World) (s : String) :
    (YoutubeDescriptor.canonicalize w (.Channel s)).1 =
      channelUserCanonicalizationSpec (w.pageContents ((YoutubeDescriptor.Channel s).to_url)) ∧
    (YoutubeDescriptor.canonicalize w (.User s)).1 =
      channelUserCanonicalizationSpec (w.pageContents ((YoutubeDescriptor.User s).to_url)) :=
  ⟨canonicalizeChannelOrUser_eq_spec w (.Channel s),
   canonicalizeChannelOrUser_eq_spec w (.User s)⟩

/-! ## C8 — duplicate-folder refusal -/

/-- C8: whenever some live session's identifier equals the canonicalized
descriptor's folder, `archive` refuses with the duplicate-task message and
performs no external invocation beyond the session listing itself — for every
requesting user, every configured limit and every descriptor kind. -/
theorem c8_duplicate_folder_refusal (w : World) (original_url : String)
    (d : CanonicalizedYoutubeDescriptor) (vs : VideoSize) (user : String) (rtd : Rtd)
    (sessions : List DownloaderSession)
    (hs : (get_downloader_sessions w).1 = .ok sessions)
    (hdup : sessions.any (fun session => session.identifier == d.folder) = true) :
    archive w original_url d vs user rtd =
      (.ok ("Can\x27t archive " ++ original_url ++
        " because another task is running in the same folder " ++ d.folder),
       [tmuxListCall]) := by
  simp only [get_downloader_sessions] at hs
  simp only [archive, get_downloader_sessions, hs]
  rw [if_pos hdup]

/-- C8 (witness). -/
theorem c8_duplicate_folder_refusal_witness :
    archive ⟨fun _ => "", "1000 YouTube-abc", fun _ => "", ""⟩ "theurl"
      ⟨"someid", "abc", .Channel⟩ .Normal "alice" ⟨[], [], 34, "#c"⟩ =
      (.ok ("Can\x27t archive " ++ "theurl" ++
        " because another task is running in the same folder " ++ "abc"),
       [tmuxListCall]) :=
  c8_duplicate_folder_refusal ⟨fun _ => "", "1000 YouTube-abc", fun _ => "", ""⟩ "theurl"
    ⟨"someid", "abc", .Channel⟩ .Normal "alice" ⟨[], [], 34, "#c"⟩
    [⟨"abc", 1000⟩] (by decide) (by decide)

/-! ## C3 — user concurrency limit -/

/-- C3 (counterexample): the claimed limit check does not apply to every
descriptor: a `Video` descriptor is archived even when the session count has
reached the requesting user's limit (here limit 1 with one unrelated live
session), launching the external grabber instead of refusing. -/
theorem c3_counterexample :
    (get_downloader_sessions ⟨fun _ => "", "1000 YouTube-other", fun _ => "", ""⟩).1 =
      .ok [⟨"other", 1000⟩] ∧
    limit_for_user "alice" ⟨[("alice", 1)], [], 34, "#c"⟩ = 1 ∧
    archive ⟨fun _ => "", "1000 YouTube-other", fun _ => "", ""⟩ "u"
      ⟨"YdSdvIRkkDY", "somefolder", .Video⟩ .Normal "alice" ⟨[("alice", 1)], [], 34, "#c"⟩ =
      (.ok "Grabbing u -> somefolder; check https://ya.borg.xyz/logs/dl/somefolder/ later",
       [tmuxListCall,
        ("grab-youtube-video", ["somefolder", "https://www.youtube.com/watch?v=YdSdvIRkkDY"])]) := by
  refine ⟨by decide, by decide, by decide⟩

/-- C3 (amended): for `Channel`, `User` and `Playlist` descriptors (but not
`Video`, which skips the limit check entirely), when no live session occupies
the folder: the request is refused with the user-concurrency-limit message
(including the limit value) when the session count has reached the per-user
limit, and otherwise the external channel grabber is launched. -/
theorem c3_limit_nonvideo (w : World) (original_url : String)
    (d : CanonicalizedYoutubeDescriptor) (vs : VideoSize) (user : String) (rtd : Rtd)
    (sessions : List DownloaderSession)
    (hs : (get_downloader_sessions w).1 = .ok sessions)
    (hnodup : sessions.any (fun session => session.identifier == d.folder) = false)
    (hkind : d.kind ≠ .Video) :
    (limit_for_user user rtd ≤ sessions.length →
      archive w original_url d vs user rtd =
        (.ok ("Can\x27t archive " ++ original_url ++
          " because too many tasks are running (your limit = " ++
          toString (limit_for_user user rtd) ++ "), try again later"),
         [tmuxListCall])) ∧
    (sessions.length < limit_for_user user rtd →
      archive w original_url d vs user rtd =
        (.ok ("Grabbing " ++ original_url ++ " -> " ++ d.folder ++ "; check " ++
          logs_url d.folder ++ " later"),
         [tmuxListCall,
          ((match vs with
            | .Normal => "grab-youtube-channel"
            | .VeryBig => "grab-youtube-channel-big-videos"),
           [d.folder, "999999"])])) := by
  simp only [get_downloader_sessions] at hs
  constructor <;> intro hlim <;>
    (simp only [archive, get_downloader_sessions, hs]
     rw [if_neg (by simp [hnodup])]
     cases hk : d.kind)
  · rw [if_pos hlim]
  · rw [if_pos hlim]
  · rw [if_pos hlim]
  · exact absurd hk hkind
  · rw [if_neg (by omega)]
    rfl
  · rw [if_neg (by omega)]
    rfl
  · rw [if_neg (by omega)]
    rfl
  · exact absurd hk hkind

/-- C3 (witness for the amended theorem): both arms at concrete inputs. -/
theorem c3_limit_nonvideo_witness :
    archive ⟨fun _ => "", "1000 YouTube-other", fun _ => "", ""⟩ "u"
      ⟨"chanid", "chanid", .Channel⟩ .Normal "bob" ⟨[("bob", 1)], [], 34, "#c"⟩ =
      (.ok ("Can\x27t archive " ++ "u" ++
        " because too many tasks are running (your limit = " ++
        toString (limit_for_user "bob" ⟨[("bob", 1)], [], 34, "#c"⟩) ++ "), try again later"),
       [tmuxListCall]) ∧
    archive ⟨fun _ => "", "1000 YouTube-other", fun _ => "", ""⟩ "u"
      ⟨"chanid", "chanid", .Channel⟩ .Normal "carol" ⟨[("carol", 5)], [], 34, "#c"⟩ =
      (.ok ("Grabbing " ++ "u" ++ " -> " ++ "chanid" ++ "; check " ++
        logs_url "chanid" ++ " later"),
       [tmuxListCall, ("grab-youtube-channel", ["chanid", "999999"])]) :=
  ⟨(c3_limit_nonvideo ⟨fun _ => "", "1000 YouTube-other", fun _ => "", ""⟩ "u"
      ⟨"chanid", "chanid", .Channel⟩ .Normal "bob" ⟨[("bob", 1)], [], 34, "#c"⟩
      [⟨"other", 1000⟩] (by decide) (by decide) (by decide)).1 (by decide),
   (c3_limit_nonvideo ⟨fun _ => "", "1000 YouTube-other", fun _ => "", ""⟩ "u"
      ⟨"chanid", "chanid", .Channel⟩ .Normal "carol" ⟨[("carol", 5)], [], 34, "#c"⟩
      [⟨"other", 1000⟩] (by decide) (by decide) (by decide)).2 (by decide)⟩

/-! ## C4 — malformed session-listing lines -/

theorem parseSessionLine_panic_of_malformed {line : List Char}
    (h : sessionLineMalformed line = true) : parseSessionLine line = .panic := by
  unfold sessionLineMalformed at h
  unfold parseSessionLine
  rcases hsp : splitOnce line with ⟨p0, p1⟩
  rw [hsp] at h
  simp only [hsp]
  simp only [Bool.or_eq_true, Option.isNone_iff_eq_none] at h
  cases hts : parseU64 p0 <;> simp only [hts]
  rcases h with h | h
  · rw [hts] at h
    cases h
  · rw [h]

theorem parseSessions_panicked {lines : List (List Char)}
    (h : ∃ l ∈ lines, sessionLineMalformed l = true) : parseSessions lines = .panicked := by
  induction lines with
  | nil => rcases h with ⟨l, hl, _⟩; cases hl
  | cons a rest ih =>
    rcases h with ⟨l, hl, hm⟩
    rcases List.mem_cons.1 hl with rfl | hmem
    · have hp := parseSessionLine_panic_of_malformed hm
      simp [parseSessions, hp]
    · have hrec := ih ⟨l, hmem, hm⟩
      cases hpa : parseSessionLine a <;> simp [parseSessions, hpa, hrec]

/-- C4 (counterexample): the claim "a malformed listing line fails the whole
call with an IO-class error" is false: the call panics (the `unwrap` on the
timestamp parse aborts) rather than returning an `Io` error. -/
theorem c4_counterexample :
    (get_downloader_sessions ⟨fun _ => "", "1000 YouTube-abc\ngarbage here", fun _ => "", ""⟩).1 =
      .panicked ∧
    (Outcome.panicked ≠ (.err .IoError : Outcome (List DownloaderSession))) := by
  refine ⟨by decide, by decide⟩

/-- C4 (amended): for every listing output containing a line with a
non-numeric timestamp or a missing session name, `get_downloader_sessions`
panics — it neither skips the malformed line and returns the remaining
sessions, nor returns an error value. -/
theorem c4_malformed_line_panics (w : World)
    (h : ∃ l ∈ rustLines w.tmuxListOutput.data, sessionLineMalformed l = true) :
    (get_downloader_sessions w).1 = .panicked := by
  simp only [get_downloader_sessions]
  exact parseSessions_panicked h

/-- C4 (witness for the amended theorem). -/
theorem c4_malformed_line_panics_witness :
    (get_downloader_sessions ⟨fun _ => "", "1000 YouTube-abc\n2000", fun _ => "", ""⟩).1 =
      .panicked :=
  c4_malformed_line_panics ⟨fun _ => "", "1000 YouTube-abc\n2000", fun _ => "", ""⟩
    ⟨("2000").data, by decide, by decide⟩

/-! ## C6 — channel URL classification -/

theorem isIdChar_of_sep_false {c : Char}
    (h : (c == '/' || c == '#' || c == '?') = true) : isIdChar c = false := by
  simp only [Bool.or_eq_true, beq_iff_eq] at h
  rcases h with (rfl | rfl) | rfl <;> decide

theorem sep_false_of_isIdChar {c : Char} (h : isIdChar c = true) :
    (c == '/' || c == '#' || c == '?') = false := by
  by_contra hne
  rw [Bool.not_eq_false] at hne
  rw [isIdChar_of_sep_false hne] at h
  cases h

theorem strStartsWith_append_append (a b c : String) :
    strStartsWith (a ++ b ++ c) a = true := by
  unfold strStartsWith
  rw [ List.isPrefixOf_iff_prefix]
  rw [show (a ++ b ++ c).data = a.data ++ (b.data ++ c.data) from by
    rw [show (a ++ b ++ c).data = (a.data ++ b.data) ++ c.data from rfl, List.append_assoc]]
  exact List.prefix_append _ _

/-- How `CHANNEL_RE`'s remainder test behaves on an identifier-charset id
followed by a well-shaped suffix: it accepts exactly the 24-character
`UC`-prefixed ids and never truncates. -/
theorem channelRest_append (L S : List Char)
    (hL : L.all isIdChar = true) (hS : pathTailOk S = true) :
    channelRest (L ++ S) =
      if L.length = 24 ∧ ("UC").data.isPrefixOf L = true then some L else none := by
  by_cases hcond : L.length = 24 ∧ ("UC").data.isPrefixOf L = true
  · obtain ⟨h24, hUC⟩ := hcond
    rw [if_pos ⟨h24, hUC⟩]
    simp only [channelRest]
    rw [List.take_left' h24, List.drop_left' h24]
    have hdropall : (List.drop 2 L).all isIdChar = true := by
      rw [List.all_eq_true] at hL ⊢
      exact fun c hc => hL c (List.mem_of_mem_drop hc)
    simp [h24, hUC, hdropall, hS]
  · rw [if_neg hcond]
    simp only [channelRest]
    rcases Nat.lt_trichotomy L.length 24 with hlt | heq | hgt
    · -- id shorter than 24 characters
      cases S with
      | nil =>
        rw [List.append_nil, List.take_of_length_le (Nat.le_of_lt hlt)]
        have hlen : (L.length == 24) = false := by
          simp only [beq_eq_false_iff_ne]
          omega
        simp [hlen]
      | cons c t =>
        simp only [pathTailOk, Bool.and_eq_true] at hS
        obtain ⟨hc, _⟩ := hS
        have htake : List.take 24 (L ++ c :: t) = L ++ c :: List.take (24 - L.length - 1) t := by
          rw [List.take_append_eq_append_take, List.take_of_length_le (Nat.le_of_lt hlt)]
          congr 1
          have h1 : 24 - L.length = (24 - L.length - 1) + 1 := by omega
          rw [h1]
          rfl
        rw [htake]
        rcases L with _ | ⟨x, _ | ⟨y, L2⟩⟩
        · -- empty id: the UC test fails on the suffix head
          have hpUC : ("UC").data.isPrefixOf (([] : List Char) ++ c :: List.take (24 - ([] : List Char).length - 1) t) = false := by
            simp only [List.nil_append, List.isPrefixOf]
            have hUc : ('U' == c) = false := by
              simp only [Bool.or_eq_true, beq_iff_eq] at hc
              rcases hc with (rfl | rfl) | rfl <;> decide
            rw [hUc]
            rfl
          rw [hpUC]
          simp
        · -- one-character id: the UC test fails on the suffix head
          have hpUC : ("UC").data.isPrefixOf ([x] ++ c :: List.take (24 - [x].length - 1) t) = false := by
            simp only [List.cons_append, List.nil_append, List.isPrefixOf]
            have hcC : ('C' == c) = false := by
              simp only [Bool.or_eq_true, beq_iff_eq] at hc
              rcases hc with (rfl | rfl) | rfl <;> decide
            rw [hcC]
            simp
          rw [hpUC]
          simp
        · -- id of length ≥ 2: the suffix head lands in the scanned run
          have hcmem : c ∈ List.drop 2 ((x :: y :: L2) ++ c :: List.take (24 - (x :: y :: L2).length - 1) t) := by
            rw [show List.drop 2 ((x :: y :: L2) ++ c :: List.take (24 - (x :: y :: L2).length - 1) t) =
              L2 ++ c :: List.take (24 - (x :: y :: L2).length - 1) t from rfl]
            exact List.mem_append_right _ (List.mem_cons_self _ _)
          have hall : (List.drop 2 ((x :: y :: L2) ++ c :: List.take (24 - (x :: y :: L2).length - 1) t)).all isIdChar = false := by
            apply Bool.eq_false_iff.2
            intro hcontra
            rw [List.all_eq_true] at hcontra
            have hcid := hcontra c hcmem
            rw [isIdChar_of_sep_false hc] at hcid
            cases hcid
          rw [hall]
          simp
    · -- id of length exactly 24 but without the UC prefix
      have hUC : ("UC").data.isPrefixOf L = false := by
        rcases hBool : ("UC").data.isPrefixOf L
        · rfl
        · exact absurd ⟨heq, hBool⟩ hcond
      rw [List.take_left' heq]
      simp [hUC]
    · -- id longer than 24 characters: the leftover id characters cannot begin
      -- the optional tail (no truncation)
      have hdrop : List.drop 24 (L ++ S) = List.drop 24 L ++ S := by
        rw [List.drop_append_eq_append_drop]
        rw [show 24 - L.length = 0 from by omega]
        rw [List.drop_zero]
      have hne : List.drop 24 L ≠ [] := by
        intro hnil
        have hln := congrArg List.length hnil
        simp only [List.length_drop, List.length_nil] at hln
        omega
      rcases hdl : List.drop 24 L with _ | ⟨d, ds⟩
      · exact absurd hdl hne
      · have hdmem : d ∈ L := List.mem_of_mem_drop (hdl ▸ List.mem_cons_self d ds)
        have hdid : isIdChar d = true := List.all_eq_true.1 hL d hdmem
        have htail : pathTailOk (List.drop 24 (L ++ S)) = false := by
          rw [hdrop, hdl]
          simp only [List.cons_append, pathTailOk]
          rw [sep_false_of_isIdChar hdid]
          rfl
        rw [htail]
        simp

/-- C6 (counterexample): the claim fails for a well-formed channel id with a
`?...` suffix: stripping the `?disable_polymer=1` flag inside the suffix
splices the remainder onto the id, and classification rejects the URL even
though the id is `UC` plus 22 identifier characters. -/
theorem c6_counterexample :
    validTaskName "UChBBWt5H8uZW1LSOh_aPt2Q" = true ∧
    ("UChBBWt5H8uZW1LSOh_aPt2Q").data.length = 24 ∧
    ("UC").data.isPrefixOf ("UChBBWt5H8uZW1LSOh_aPt2Q").data = true ∧
    YoutubeDescriptor.from_url
      ("https://www.youtube.com/channel/" ++ "UChBBWt5H8uZW1LSOh_aPt2Q" ++ "?disable_polymer=123") =
      .error (.UnsupportedUrl "https://www.youtube.com/channel/UChBBWt5H8uZW1LSOh_aPt2Q23") := by
  refine ⟨by decide, by decide, by decide, by decide⟩

/-- C6 (amended): for every id over the identifier charset and every suffix
that is empty or `/`/`?`/`#`-led (newline-free), provided the URL contains no
occurrence of a normalizer rewrite pattern, classification of
`https://www.youtube.com/channel/<id><suffix>` returns `Channel(id)` exactly
when the id is `UC` followed by 22 identifier characters (length 24), and
rejects the URL with `UnsupportedUrl` otherwise — never truncating a longer
id. -/
theorem c6_channel_classification (id suffix : String)
    (hid : id.data.all isIdChar = true)
    (hsuffix : pathTailOk suffix.data = true)
    (hnp : noRewritePattern ("https://www.youtube.com/channel/" ++ id ++ suffix)) :
    YoutubeDescriptor.from_url ("https://www.youtube.com/channel/" ++ id ++ suffix) =
      (if id.data.length = 24 ∧ ("UC").data.isPrefixOf id.data = true then
        .ok (.Channel id)
      else
        .error (.UnsupportedUrl ("https://www.youtube.com/channel/" ++ id ++ suffix))) := by
  unfold YoutubeDescriptor.from_url
  rw [fix_youtube_url_of_noRewritePattern _ hnp]
  unfold classifyFixed
  rw [if_neg (by
    rw [show strStartsWith ("https://www.youtube.com/channel/" ++ id ++ suffix)
      "https://www.youtube.com/" = true from rfl]
    simp)]
  rw [show watchMatch ("https://www.youtube.com/channel/" ++ id ++ suffix) = none from by
    unfold watchMatch
    rw [show strStartsWith ("https://www.youtube.com/channel/" ++ id ++ suffix)
      "https://www.youtube.com/watch" = false from rfl]
    rfl]
  rw [show oldPlaylistMatch ("https://www.youtube.com/channel/" ++ id ++ suffix) = none from by
    unfold oldPlaylistMatch
    rw [show strStartsWith ("https://www.youtube.com/channel/" ++ id ++ suffix)
      "https://www.youtube.com/playlist" = false from rfl]
    rfl]
  rw [show newPlaylistMatch ("https://www.youtube.com/channel/" ++ id ++ suffix) = none from by
    unfold newPlaylistMatch
    rw [show strStartsWith ("https://www.youtube.com/channel/" ++ id ++ suffix)
      "https://www.youtube.com/playlist" = false from rfl]
    rfl]
  have hchan : channelMatch ("https://www.youtube.com/channel/" ++ id ++ suffix) =
      (channelRest (id.data ++ suffix.data)).map (fun l => (⟨l⟩ : String)) := by
    unfold channelMatch
    rw [strStartsWith_append_append "https://www.youtube.com/channel/" id suffix]
    rw [show List.drop 32 ("https://www.youtube.com/channel/" ++ id ++ suffix).data =
      id.data ++ suffix.data from rfl]
    rfl
  rw [hchan, channelRest_append id.data suffix.data hid hsuffix]
  by_cases hcond : id.data.length = 24 ∧ ("UC").data.isPrefixOf id.data = true
  · rw [if_pos hcond, if_pos hcond]
    rfl
  · rw [if_neg hcond, if_neg hcond]
    rw [show userMatch ("https://www.youtube.com/channel/" ++ id ++ suffix) = none from by
      unfold userMatch
      rw [show strStartsWith ("https://www.youtube.com/channel/" ++ id ++ suffix)
        "https://www.youtube.com/user/" = false from rfl]
      rfl]
    rfl

/-- C6 (witness for the amended theorem): both arms at concrete inputs. -/
theorem c6_channel_classification_witness :
    YoutubeDescriptor.from_url
      ("https://www.youtube.com/channel/" ++ "UChBBWt5H8uZW1LSOh_aPt2Q" ++ "/videos#frag") =
      .ok (.Channel "UChBBWt5H8uZW1LSOh_aPt2Q") ∧
    YoutubeDescriptor.from_url
      ("https://www.youtube.com/channel/" ++ "UChBBWt5H8uZW1LSOh_aPt2" ++ "") =
      .error (.UnsupportedUrl
        ("https://www.youtube.com/channel/" ++ "UChBBWt5H8uZW1LSOh_aPt2" ++ "")) := by
  constructor
  · rw [c6_channel_classification "UChBBWt5H8uZW1LSOh_aPt2Q" "/videos#frag"
      (by decide) (by decide) (by decide)]
    rw [if_pos ⟨by decide, by decide⟩]
  · rw [c6_channel_classification "UChBBWt5H8uZW1LSOh_aPt2" ""
      (by decide) (by decide) (by decide)]
    rw [if_neg (by decide)]

/-! ## C7 — normalizer idempotence -/

/-- C7 (counterexample): the normalizer is not idempotent.  Removing the
`?disable_polymer=1` flag from `?disable_polymer?disable_polymer=1=1` splices
together a fresh `?disable_polymer=1`, which a second normalization removes. -/
theorem c7_counterexample :
    fix_youtube_url "?disable_polymer?disable_polymer=1=1" = "?disable_polymer=1" ∧
    fix_youtube_url (fix_youtube_url "?disable_polymer?disable_polymer=1=1") = "" ∧
    fix_youtube_url (fix_youtube_url "?disable_polymer?disable_polymer=1=1") ≠
      fix_youtube_url "?disable_polymer?disable_polymer=1=1" := by
  refine ⟨by decide, by decide, by decide⟩

/-- C7 (amended): the normalizer is a pure function, and it is idempotent on
every input whose normalized form contains no occurrence of any of the six
rewrite patterns (in particular, re-normalizing such an already-normalized
URL is a no-op); full idempotence fails, as the splicing counterexample
shows. -/
theorem c7_normalizer_idempotent_on_stable (x : String)
    (h : noRewritePattern (fix_youtube_url x)) :
    fix_youtube_url (fix_youtube_url x) = fix_youtube_url x :=
  fix_youtube_url_of_noRewritePattern _ h

/-- C7 (witness for the amended theorem). -/
theorem c7_normalizer_idempotent_on_stable_witness :
    fix_youtube_url (fix_youtube_url "http://youtu.be/dQw4w9WgXcQ") =
      fix_youtube_url "http://youtu.be/dQw4w9WgXcQ" :=
  c7_normalizer_idempotent_on_stable "http://youtu.be/dQw4w9WgXcQ" (by decide)

/-! ## C2 — webchat authorization refusal -/

set_option maxHeartbeats 1600000 in
/-- On every authorization-requiring command, `dispatch_message` consults the
authorization capability first and propagates its error without any further
processing or external invocation. -/
theorem dispatch_message_auth_err (w : World) (msg user : String) (rtd : Rtd)
    (auth : AuthFn) (e : Error) (sends : List String)
    (hcmd : authRequiredCommand msg = true)
    (hauth : auth () = (.error e, sends)) :
    dispatch_message w msg user rtd auth = (.err e, [], sends) := by
  simp only [authRequiredCommand, Bool.or_eq_true] at hcmd
  rcases hcmd with ((((((h | h) | h) | h) | h) | h) | h)
  · have hm : msg = "!stopscripts" := by simpa using h
    subst hm
    simp only [dispatch_message, hauth]
    simp
  · have hm : msg = "!contscripts" := by simpa using h
    subst hm
    simp only [dispatch_message, hauth]
    simp
  · -- !a
    simp only [dispatch_message]
    rw [if_neg (ne_of_strStartsWith h (by decide)),
      if_neg (ne_of_strStartsWith h (by decide)),
      if_neg (ne_of_strStartsWith h (by decide)),
      if_neg (ne_of_strStartsWith h (by decide)),
      if_neg (by simp [strStartsWith_false_of (q := "!s ") h (by decide) (by decide)]),
      if_pos h, hauth]
  · -- !sa
    simp only [dispatch_message]
    rw [if_neg (ne_of_strStartsWith h (by decide)),
      if_neg (ne_of_strStartsWith h (by decide)),
      if_neg (ne_of_strStartsWith h (by decide)),
      if_neg (ne_of_strStartsWith h (by decide)),
      if_neg (by simp [strStartsWith_false_of (q := "!s ") h (by decide) (by decide)]),
      if_neg (by simp [strStartsWith_false_of (q := "!a ") h (by decide) (by decide)]),
      if_pos h, hauth]
  · -- !averybig
    simp only [dispatch_message]
    rw [if_neg (ne_of_strStartsWith h (by decide)),
      if_neg (ne_of_strStartsWith h (by decide)),
      if_neg (ne_of_strStartsWith h (by decide)),
      if_neg (ne_of_strStartsWith h (by decide)),
      if_neg (by simp [strStartsWith_false_of (q := "!s ") h (by decide) (by decide)]),
      if_neg (by simp [strStartsWith_false_of (q := "!a ") h (by decide) (by decide)]),
      if_neg (by simp [strStartsWith_false_of (q := "!sa ") h (by decide) (by decide)]),
      if_pos h, hauth]
  · -- !saverybig
    simp only [dispatch_message]
    rw [if_neg (ne_of_strStartsWith h (by decide)),
      if_neg (ne_of_strStartsWith h (by decide)),
      if_neg (ne_of_strStartsWith h (by decide)),
      if_neg (ne_of_strStartsWith h (by decide)),
      if_neg (by simp [strStartsWith_false_of (q := "!s ") h (by decide) (by decide)]),
      if_neg (by simp [strStartsWith_false_of (q := "!a ") h (by decide) (by decide)]),
      if_neg (by simp [strStartsWith_false_of (q := "!sa ") h (by decide) (by decide)]),
      if_neg (by simp [strStartsWith_false_of (q := "!averybig ") h (by decide) (by decide)]),
      if_pos h, hauth]
  · -- !abort
    simp only [dispatch_message]
    rw [if_neg (ne_of_strStartsWith h (by decide)),
      if_neg (ne_of_strStartsWith h (by decide)),
      if_neg (ne_of_strStartsWith h (by decide)),
      if_neg (ne_of_strStartsWith h (by decide)),
      if_neg (by simp [strStartsWith_false_of (q := "!s ") h (by decide) (by decide)]),
      if_neg (by simp [strStartsWith_false_of (q := "!a ") h (by decide) (by decide)]),
      if_neg (by simp [strStartsWith_false_of (q := "!sa ") h (by decide) (by decide)]),
      if_neg (by simp [strStartsWith_false_of (q := "!averybig ") h (by decide) (by decide)]),
      if_neg (by simp [strStartsWith_false_of (q := "!saverybig ") h (by decide) (by decide)]),
      if_pos h, hauth]

theorem not_archive_of_authRequired {msg : String}
    (h : authRequiredCommand msg = true) : strStartsWith msg "!archive " = false := by
  simp only [authRequiredCommand, Bool.or_eq_true] at h
  rcases h with ((((((h | h) | h) | h) | h) | h) | h)
  · have hm : msg = "!stopscripts" := by simpa using h
    subst hm
    decide
  · have hm : msg = "!contscripts" := by simpa using h
    subst hm
    decide
  · exact strStartsWith_false_of h (by decide) (by decide)
  · exact strStartsWith_false_of h (by decide) (by decide)
  · exact strStartsWith_false_of h (by decide) (by decide)
  · exact strStartsWith_false_of h (by decide) (by decide)
  · exact strStartsWith_false_of h (by decide) (by decide)

/-- C2 (counterexample): a webchat-relayed `!a` command does not yield exactly
one reply: the fixed warning is followed by a second reply rendering the
propagated `NotAuthorized` error. -/
theorem c2_counterexample :
    handle_message
      ⟨fun _ => "", "", fun _ => "", ""⟩
      ⟨some "nick!webchat@1.2.3.4", "nick", "#chan",
        "!a https://www.youtube.com/watch?v=YdSdvIRkkDY"⟩
      ⟨[], [], 34, "#chan"⟩ =
      (["nick: webchat users are not authorized; use any other IRC client, or ask someone else to do it",
        "nick: error: Not authorized"], []) ∧
    (["nick: webchat users are not authorized; use any other IRC client, or ask someone else to do it",
      "nick: error: Not authorized"] : List String).length ≠ 1 := by
  refine ⟨by decide, by decide⟩

/-- C2 (amended): an authorization-requiring command from a sender whose
connection prefix matches the webchat pattern performs no external invocation
and none of that command's processing, but emits exactly two replies: the
fixed warning, then the rendering of the `NotAuthorized` error. -/
theorem c2_webchat_two_replies (w : World) (m : Msg) (rtd : Rtd) (p : String)
    (hp : m.origin = some p) (hweb : webchat_match p = true)
    (hcmd : authRequiredCommand m.text = true)
    (htgt : m.responseTarget = rtd.command_channel) :
    handle_message w m rtd =
      ([highlight_for_user m.nick rtd ++ ": " ++ NO_WEBCHAT_MESSAGE,
        m.nick ++ ": error: Not authorized"], []) := by
  simp only [handle_message]
  rw [if_pos htgt]
  have hkick : ¬(m.nick = "Ryz" ∧ strStartsWith m.text "!archive " = true) := by
    intro hcon
    rw [not_archive_of_authRequired hcmd] at hcon
    exact absurd hcon.2 (by simp)
  rw [if_neg hkick]
  have hauth : webchat_authorization m rtd () =
      (.error .NotAuthorized, [send_reply m.nick rtd (.ok NO_WEBCHAT_MESSAGE)]) := by
    unfold webchat_authorization
    rw [hp]
    simp [hweb]
  rw [dispatch_message_auth_err w m.text m.nick rtd _ _ _ hcmd hauth]
  simp only [send_reply, errDisplay, List.nil_append]
  simp [String.append_assoc]

/-- C2 (witness for the amended theorem). -/
theorem c2_webchat_two_replies_witness :
    handle_message
      ⟨fun _ => "", "", fun _ => "", ""⟩
      ⟨some "visitor!webchat@gateway", "visitor", "#youtube", "!abort sometask"⟩
      ⟨[], [], 34, "#youtube"⟩ =
      ([highlight_for_user "visitor" ⟨[], [], 34, "#youtube"⟩ ++ ": " ++ NO_WEBCHAT_MESSAGE,
        "visitor" ++ ": error: Not authorized"], []) :=
  c2_webchat_two_replies ⟨fun _ => "", "", fun _ => "", ""⟩
    ⟨some "visitor!webchat@gateway", "visitor", "#youtube", "!abort sometask"⟩
    ⟨[], [], 34, "#youtube"⟩ "visitor!webchat@gateway"
    rfl (by decide) (by decide) rfl

/-! ## C9 — oversized argument tokens -/

set_option maxHeartbeats 1600000 in
/-- C9: for every command taking an argument token (`!s`, `!a`, `!sa`,
`!averybig`, `!saverybig`, `!abort`), an argument token longer than 200 bytes
makes dispatch fail with `UrlTooLong` — an error kind outside the
specification's taxonomy — before any classification, page fetch or external
invocation, for an authorized (non-webchat) sender. -/
theorem c9_url_too_long (w : World) (msg user : String) (rtd : Rtd)
    (hcmd : commandWithUrlArg msg = true)
    (hlen : 200 < (extract_url_token msg).utf8ByteSize) :
    dispatch_message w msg user rtd authAlways = (.err .UrlTooLong, [], []) := by
  have hurl : extract_url msg = .error .UrlTooLong := by
    unfold extract_url
    rw [if_neg (by omega)]
  simp only [commandWithUrlArg, Bool.or_eq_true] at hcmd
  rcases hcmd with (((((h | h) | h) | h) | h) | h)
  · -- !s
    simp only [dispatch_message]
    rw [if_neg (ne_of_strStartsWith h (by decide)),
      if_neg (ne_of_strStartsWith h (by decide)),
      if_neg (ne_of_strStartsWith h (by decide)),
      if_neg (ne_of_strStartsWith h (by decide)),
      if_pos h]
    simp only [authAlways, hurl]
  · -- !a
    simp only [dispatch_message]
    rw [if_neg (ne_of_strStartsWith h (by decide)),
      if_neg (ne_of_strStartsWith h (by decide)),
      if_neg (ne_of_strStartsWith h (by decide)),
      if_neg (ne_of_strStartsWith h (by decide)),
      if_neg (by simp [strStartsWith_false_of (q := "!s ") h (by decide) (by decide)]),
      if_pos h]
    simp only [authAlways, hurl]
  · -- !sa
    simp only [dispatch_message]
    rw [if_neg (ne_of_strStartsWith h (by decide)),
      if_neg (ne_of_strStartsWith h (by decide)),
      if_neg (ne_of_strStartsWith h (by decide)),
      if_neg (ne_of_strStartsWith h (by decide)),
      if_neg (by simp [strStartsWith_false_of (q := "!s ") h (by decide) (by decide)]),
      if_neg (by simp [strStartsWith_false_of (q := "!a ") h (by decide) (by decide)]),
      if_pos h]
    simp only [authAlways, hurl]
  · -- !averybig
    simp only [dispatch_message]
    rw [if_neg (ne_of_strStartsWith h (by decide)),
      if_neg (ne_of_strStartsWith h (by decide)),
      if_neg (ne_of_strStartsWith h (by decide)),
      if_neg (ne_of_strStartsWith h (by decide)),
      if_neg (by simp [strStartsWith_false_of (q := "!s ") h (by decide) (by decide)]),
      if_neg (by simp [strStartsWith_false_of (q := "!a ") h (by decide) (by decide)]),
      if_neg (by simp [strStartsWith_false_of (q := "!sa ") h (by decide) (by decide)]),
      if_pos h]
    simp only [authAlways, hurl]
  · -- !saverybig
    simp only [dispatch_message]
    rw [if_neg (ne_of_strStartsWith h (by decide)),
      if_neg (ne_of_strStartsWith h (by decide)),
      if_neg (ne_of_strStartsWith h (by decide)),
      if_neg (ne_of_strStartsWith h (by decide)),
      if_neg (by simp [strStartsWith_false_of (q := "!s ") h (by decide) (by decide)]),
      if_neg (by simp [strStartsWith_false_of (q := "!a ") h (by decide) (by decide)]),
      if_neg (by simp [strStartsWith_false_of (q := "!sa ") h (by decide) (by decide)]),
      if_neg (by simp [strStartsWith_false_of (q := "!averybig ") h (by decide) (by decide)]),
      if_pos h]
    simp only [authAlways, hurl]
  · -- !abort
    simp only [dispatch_message]
    rw [if_neg (ne_of_strStartsWith h (by decide)),
      if_neg (ne_of_strStartsWith h (by decide)),
      if_neg (ne_of_strStartsWith h (by decide)),
      if_neg (ne_of_strStartsWith h (by decide)),
      if_neg (by simp [strStartsWith_false_of (q := "!s ") h (by decide) (by decide)]),
      if_neg (by simp [strStartsWith_false_of (q := "!a ") h (by decide) (by decide)]),
      if_neg (by simp [strStartsWith_false_of (q := "!sa ") h (by decide) (by decide)]),
      if_neg (by simp [strStartsWith_false_of (q := "!averybig ") h (by decide) (by decide)]),
      if_neg (by simp [strStartsWith_false_of (q := "!saverybig ") h (by decide) (by decide)]),
      if_pos h]
    simp only [authAlways, hurl]

set_option maxRecDepth 8000 in
/-- C9 (witness): a 201-byte argument to `!a`. -/
theorem c9_url_too_long_witness :
    dispatch_message ⟨fun _ => "", "", fun _ => "", ""⟩
      ("!a " ++ (⟨List.replicate 201 'a'⟩ : String)) "user" ⟨[], [], 34, "#c"⟩ authAlways =
      (.err .UrlTooLong, [], []) :=
  c9_url_too_long ⟨fun _ => "", "", fun _ => "", ""⟩
    ("!a " ++ (⟨List.replicate 201 'a'⟩ : String)) "user" ⟨[], [], 34, "#c"⟩
    (by decide) (by decide)

/-! ## C10 — stash-check error does not block the archive in `!sa` -/

set_option maxHeartbeats 1600000 in
/-- C10: for every watch URL that classifies as a video and canonicalizes
successfully, dispatching `!sa` (or `!saverybig`) produces exactly two
replies in order: first the `NotImplemented` stash-check error for the video
kind, then the archive reply — the stash-check failure does not prevent the
archive from running (its external calls happen after the canonicalization
fetches). -/
theorem c10_stash_error_then_archive (w : World) (msg user : String) (rtd : Rtd)
    (u vid : String) (c : CanonicalizedYoutubeDescriptor) (ccalls : List ExtCall)
    (hu : extract_url msg = .ok u)
    (hclass : YoutubeDescriptor.from_url u = .ok (.Video vid))
    (hcanon : YoutubeDescriptor.canonicalize w (.Video vid) = (.ok c, ccalls)) :
    (∀ r acalls, strStartsWith msg "!sa " = true →
      archive w u c .Normal user rtd = (.ok r, acalls) →
      dispatch_message w msg user rtd authAlways =
        (.ok [.error (.NotImplemented "/s on /watch? URL"), .ok r], ccalls ++ acalls, [])) ∧
    (∀ r acalls, strStartsWith msg "!saverybig " = true →
      archive w u c .VeryBig user rtd = (.ok r, acalls) →
      dispatch_message w msg user rtd authAlways =
        (.ok [.error (.NotImplemented "/s on /watch? URL"), .ok r], ccalls ++ acalls, [])) := by
  have hkind : c.kind = .Video := (canonicalize_video_shape (by rw [hcanon])).1
  have hstash : check_stash w c = (.error (.NotImplemented "/s on /watch? URL"), []) := by
    unfold check_stash
    rw [if_pos (by rw [hkind]; decide)]
  constructor <;> intro r acalls hm harch
  · simp only [dispatch_message]
    rw [if_neg (ne_of_strStartsWith hm (by decide)),
      if_neg (ne_of_strStartsWith hm (by decide)),
      if_neg (ne_of_strStartsWith hm (by decide)),
      if_neg (ne_of_strStartsWith hm (by decide)),
      if_neg (by simp [strStartsWith_false_of (q := "!s ") hm (by decide) (by decide)]),
      if_neg (by simp [strStartsWith_false_of (q := "!a ") hm (by decide) (by decide)]),
      if_pos hm]
    simp only [authAlways, hu, hclass, hcanon, hstash, harch, Outcome.toItem]
    simp
  · simp only [dispatch_message]
    rw [if_neg (ne_of_strStartsWith hm (by decide)),
      if_neg (ne_of_strStartsWith hm (by decide)),
      if_neg (ne_of_strStartsWith hm (by decide)),
      if_neg (ne_of_strStartsWith hm (by decide)),
      if_neg (by simp [strStartsWith_false_of (q := "!s ") hm (by decide) (by decide)]),
      if_neg (by simp [strStartsWith_false_of (q := "!a ") hm (by decide) (by decide)]),
      if_neg (by simp [strStartsWith_false_of (q := "!sa ") hm (by decide) (by decide)]),
      if_neg (by simp [strStartsWith_false_of (q := "!averybig ") hm (by decide) (by decide)]),
      if_pos hm]
    simp only [authAlways, hu, hclass, hcanon, hstash, harch, Outcome.toItem]
    simp

set_option maxRecDepth 8000 in
/-- C10 (witness): a concrete `!sa` dispatch on a watch URL. -/
theorem c10_stash_error_then_archive_witness :
    dispatch_message
      ⟨fun _ => "<meta itemprop=\"channelId\" content=\"UCtestchan\">", "", fun _ => "", ""⟩
      "!sa https://www.youtube.com/watch?v=YdSdvIRkkDY" "user" ⟨[], [], 34, "#c"⟩ authAlways =
      (.ok [.error (.NotImplemented "/s on /watch? URL"),
        .ok "Grabbing https://www.youtube.com/watch?v=YdSdvIRkkDY -> UCtestchan; check https://ya.borg.xyz/logs/dl/UCtestchan/ later"],
       [("get-youtube-page", ["https://www.youtube.com/watch?v=YdSdvIRkkDY"]),
        ("get-youtube-page", ["https://www.youtube.com/channel/UCtestchan/videos"])] ++
       [tmuxListCall,
        ("grab-youtube-video", ["UCtestchan", "https://www.youtube.com/watch?v=YdSdvIRkkDY"])],
       []) :=
  (c10_stash_error_then_archive
    ⟨fun _ => "<meta itemprop=\"channelId\" content=\"UCtestchan\">", "", fun _ => "", ""⟩
    "!sa https://www.youtube.com/watch?v=YdSdvIRkkDY" "user" ⟨[], [], 34, "#c"⟩
    "https://www.youtube.com/watch?v=YdSdvIRkkDY" "YdSdvIRkkDY"
    ⟨"YdSdvIRkkDY", "UCtestchan", .Video⟩
    [("get-youtube-page", ["https://www.youtube.com/watch?v=YdSdvIRkkDY"]),
     ("get-youtube-page", ["https://www.youtube.com/channel/UCtestchan/videos"])]
    (by decide) (by decide) (by decide)).1
    "Grabbing https://www.youtube.com/watch?v=YdSdvIRkkDY -> UCtestchan; check https://ya.borg.xyz/logs/dl/UCtestchan/ later"
    [tmuxListCall,
     ("grab-youtube-video", ["UCtestchan", "https://www.youtube.com/watch?v=YdSdvIRkkDY"])]
    (by decide) (by decide)
